import Mathlib

/-!
Shallow embedding of the demand-forecasting pipeline of the python service
(`models/ensemble.py`, `models/xgboost_optimal.py`, `main.py`), together with
theorems checking the natural-language specification against it.

Conventions:
* Python floats are embedded as exact rationals `ℚ` (all arithmetic in the
  embedded code paths is field arithmetic except square roots, which are
  embedded over `ℝ`).
* Calendar dates are embedded as `ℤ` counting days since the Unix epoch
  (1970-01-01); `timedelta(days=1)` is `+ 1`.
* Python dicts keyed by fixed string constants become structures; dicts used
  as date-keyed lookup tables become association lists with last-write-wins
  lookup, matching the insertion semantics of `dict.__setitem__`.
-/

/-- Python `int(x)` on a float: truncation toward zero. -/
def pyTrunc (q : ℚ) : ℤ := if 0 ≤ q then ⌊q⌋ else -⌊-q⌋

/-- Python `round(x)` (banker's rounding / round-half-to-even). -/
def pyRound (q : ℚ) : ℤ :=
  if Int.fract q = 1/2 then (if Even ⌊q⌋ then ⌊q⌋ else ⌊q⌋ + 1) else round q

/-- Python `round(x, 3)`. -/
def pyRound3 (q : ℚ) : ℚ := (pyRound (q * 1000) : ℚ) / 1000

/- ---------------------------------------------------------------------
`models/ensemble.py`
--------------------------------------------------------------------- -/

/-- The `{"rule": _, "ml": _}` weight dict of `calculate_adaptive_weights`. -/
structure Weights where
  rule : ℚ
  ml : ℚ
deriving DecidableEq, Repr

/-- `ensemble.calculate_adaptive_weights(data_quality_days, agreement_score)`. -/
def calculate_adaptive_weights (data_quality_days : ℤ) (agreement_score : ℚ) : Weights :=
  if data_quality_days < 60 then ⟨7/10, 3/10⟩
  else if data_quality_days > 90 ∧ agreement_score ≥ 8/10 then ⟨3/10, 7/10⟩
  else ⟨1/2, 1/2⟩

/-- `ensemble._to_lookup`: a prediction row list becomes a date-keyed table;
a duplicated date keeps the last row (`dict` insertion overwrites). -/
def toLookup (preds : List (ℤ × ℚ)) (d : ℤ) : Option ℚ :=
  preds.foldl (fun acc p => if p.1 = d then some p.2 else acc) none

/-- `sorted(set(rule_keys) | set(p50_keys))` of `ensemble_forecast`. -/
def allDates (rule_pred ml_p50 : List (ℤ × ℚ)) : List ℤ :=
  ((rule_pred.map Prod.fst ++ ml_p50.map Prod.fst).dedup).insertionSort (· ≤ ·)

/-- `ensemble._confidence_from_width(lower, upper, value)`. -/
def confidence_from_width (lower upper value : ℚ) : String :=
  let width := max (upper - lower) 0
  let denom := max |value| 1
  if width / denom < 2/10 then "HIGH"
  else if width / denom < 4/10 then "MEDIUM"
  else "LOW"

/-- One output row of the per-date loop of `ensemble_forecast`. -/
structure EnsPoint where
  date : ℤ
  rule_based : ℚ
  ml_p10 : ℚ
  ml_p50 : ℚ
  ml_p90 : ℚ
  predicted_quantity : ℚ
  forecast : ℚ
  lower_bound : ℚ
  upper_bound : ℚ
  confidence : String
deriving DecidableEq, Repr

/-- The rule value the loop uses for a date: lookup with default `0.0`. -/
def ruleValAt (rule_pred : List (ℤ × ℚ)) (d : ℤ) : ℚ := (toLookup rule_pred d).getD 0

/-- The ML median the loop uses for a date: lookup with the rule value as default. -/
def p50At (rule_pred ml_p50 : List (ℤ × ℚ)) (d : ℤ) : ℚ :=
  (toLookup ml_p50 d).getD (ruleValAt rule_pred d)

/-- The body of the per-date loop of `ensemble_forecast`. -/
def ensRow (rule_pred ml_p10 ml_p50 ml_p90 : List (ℤ × ℚ)) (w : Weights) (d : ℤ) :
    EnsPoint :=
  let rule_val := ruleValAt rule_pred d
  let p10 := (toLookup ml_p10 d).getD rule_val
  let p50 := p50At rule_pred ml_p50 d
  let p90 := (toLookup ml_p90 d).getD (max p50 rule_val)
  let ensemble_qty := w.rule * rule_val + w.ml * p50
  ⟨d, rule_val, p10, p50, p90, ensemble_qty, ensemble_qty,
    min p10 ensemble_qty, max p90 ensemble_qty,
    confidence_from_width p10 p90 ensemble_qty⟩

/-- Per-day agreement appended by the loop:
`1 - min(abs(rule_val - p50) / max(p50, 1.0), 1.0)`. -/
def dayAgreement (rule_val p50 : ℚ) : ℚ := 1 - min (|rule_val - p50| / max p50 1) 1

/-- Per-day numeric confidence score used for the overall label. -/
def confScoreOf (c : String) : ℚ := if c = "HIGH" then 1 else if c = "MEDIUM" then 6/10 else 3/10

/-- `np.mean` of a nonempty list (callers guard emptiness). -/
def npMean (l : List ℚ) : ℚ := l.sum / l.length

/-- The return dict of `ensemble_forecast` (the empty-input branch carries no
`confidence` key, hence the `Option`). -/
structure EnsembleResult where
  predictions : List EnsPoint
  agreement_score : ℚ
  trend : String
  confidence : Option String
deriving DecidableEq, Repr

/-- `ensemble.ensemble_forecast(rule_pred, ml_p10, ml_p50, ml_p90, weights)`. -/
def ensemble_forecast (rule_pred ml_p10 ml_p50 ml_p90 : List (ℤ × ℚ)) (w : Weights) :
    EnsembleResult :=
  let predictions :=
    (allDates rule_pred ml_p50).map (ensRow rule_pred ml_p10 ml_p50 ml_p90 w)
  match predictions with
  | [] => ⟨[], 0, "STABLE", none⟩
  | p :: rest =>
    let preds := p :: rest
    let agreement_scores := preds.map fun q => dayAgreement q.rule_based q.ml_p50
    let overall_agreement := npMean agreement_scores
    let last := preds.getLast (by simp)
    let trend :=
      if last.predicted_quantity > p.predicted_quantity * (105/100) then "INCREASING"
      else if last.predicted_quantity < p.predicted_quantity * (95/100) then "DECREASING"
      else "STABLE"
    let conf_score := npMean (preds.map fun q => confScoreOf q.confidence)
    let overall_confidence :=
      if conf_score ≥ 8/10 then "HIGH" else if conf_score ≥ 55/100 then "MEDIUM" else "LOW"
    ⟨preds, overall_agreement, trend, some overall_confidence⟩

/-- The burst dict as read by `generate_recommendations`
(`realtime_burst.get('severity')`, `.get('score', 0)`). -/
structure BurstInfo where
  severity : Option String
  score : ℚ
deriving DecidableEq, Repr

/-- The momentum dict as read by `generate_recommendations`
(`realtime_momentum.get('status')`, `.get('combined', 0)`). -/
structure MomentumInfo where
  status : Option String
  combined : ℚ
deriving DecidableEq, Repr

/-- The five recommendation dicts of `generate_recommendations`, keeping their
numeric support values (display-only message strings are not modelled). -/
inductive Recommendation
  | scaleUp (stock : ℤ)
  | peakStrategy (stockBeforePeak stockAfterPeak totalSmart totalNaive savings : ℤ)
      (peakIdx : ℕ) (declinePct : ℤ)
  | intervention
  | optimize (bufferStock : ℤ)
  | standard (total avgDaily : ℤ)
deriving DecidableEq, Repr

/-- The `'type'` tag of a recommendation dict. -/
def Recommendation.typeName : Recommendation → String
  | .scaleUp _ => "SCALE_UP"
  | .peakStrategy _ _ _ _ _ _ _ => "PEAK_STRATEGY"
  | .intervention => "INTERVENTION"
  | .optimize _ => "OPTIMIZE"
  | .standard _ _ => "STANDARD"

/-- The `'priority'` tag of a recommendation dict. -/
def Recommendation.priority : Recommendation → String
  | .scaleUp _ => "URGENT"
  | .peakStrategy _ _ _ _ _ _ _ => "HIGH"
  | .intervention => "PENTING"
  | .optimize _ => "RENDAH"
  | .standard _ _ => "MEDIUM"

/-- The `priority_order` dict used as sort key (`.get(p, 99)`). -/
def priorityRank (p : String) : ℕ :=
  if p = "URGENT" then 0
  else if p = "HIGH" then 1
  else if p = "PENTING" then 2
  else if p = "MEDIUM" then 3
  else if p = "RENDAH" then 4
  else 99

/-- `forecast_values = [p['forecast'] for p in ensemble]`. -/
def forecastValues (ensemble : List EnsPoint) : List ℚ := ensemble.map (·.forecast)

/-- `max(forecast_values)` (callers guard emptiness). -/
def pyMax (l : List ℚ) : ℚ := l.maximum.unbot' 0

/-- `forecast_values.index(max(forecast_values))`. -/
def peakIndexOf (fv : List ℚ) : ℕ := fv.indexOf (pyMax fv)

/-- The local `trend_direction` of `generate_recommendations`
(note: plain strict comparison of last vs first, no 5% band). -/
def trendDir (fv : List ℚ) : String :=
  if fv.getLastD 0 > fv.headD 0 then "INCREASING"
  else if fv.getLastD 0 < fv.headD 0 then "DECREASING"
  else "STABLE"

/-- `ensemble.generate_recommendations(realtime_burst, realtime_momentum, ml_forecast,
ensemble)`.  The `ml_forecast` argument is unused by the source body and omitted.
The result is `none` exactly where the Python function raises `ZeroDivisionError`
(rule 2 interpolates `forecast_values[-1]/peak_value` into its message, which
divides by zero when the peak value is `0`). -/
def generate_recommendations (realtime_burst : BurstInfo)
    (realtime_momentum : MomentumInfo) (ensemble : List EnsPoint) :
    Option (List Recommendation) :=
  match ensemble with
  | [] => some []
  | e :: es =>
    let fv := forecastValues (e :: es)
    let trend_direction := trendDir fv
    let total_forecast_7d := fv.sum
    let peak_value := pyMax fv
    let peak_index := peakIndexOf fv
    let fvLast := fv.getLastD 0
    let recs : Option (List Recommendation) :=
      if realtime_burst.severity = some "CRITICAL" ∧ trend_direction = "INCREASING" ∧
          e.confidence = "HIGH" then
        some [.scaleUp (pyTrunc (total_forecast_7d * (13/10)))]
      else if peak_index < fv.length - 2 ∧ fvLast < peak_value * (75/100) then
        if peak_value = 0 then none
        else
          let before_peak := fv.take (peak_index + 1)
          let after_peak := fv.drop (peak_index + 1)
          let stock_before_peak := pyTrunc (before_peak.sum * (12/10))
          let stock_after_peak := pyTrunc (after_peak.sum * 1)
          let total_smart := stock_before_peak + stock_after_peak
          let total_naive := pyTrunc (total_forecast_7d * (13/10))
          some [.peakStrategy stock_before_peak stock_after_peak total_smart total_naive
            (total_naive - total_smart) peak_index (pyTrunc ((1 - fvLast / peak_value) * 100))]
      else if realtime_momentum.status = some "DECLINING" ∧ trend_direction = "DECREASING" then
        some [.intervention]
      else if realtime_momentum.status = some "STABLE" ∧ e.confidence = "HIGH" then
        some [.optimize (pyTrunc (total_forecast_7d / 7 * 3))]
      else
        some [.standard (pyTrunc total_forecast_7d) (pyTrunc (total_forecast_7d / 7))]
    recs.map (List.insertionSort fun a b => priorityRank a.priority ≤ priorityRank b.priority)

/-- `int(total_forecast_7d * 1.3)`: both the SCALE_UP stock advice and the
`total_naive` baseline of the peak strategy. -/
def scaleUpStock (fv : List ℚ) : ℤ := pyTrunc (fv.sum * (13/10))

/-- `stock_before_peak = int(sum(before_peak) * 1.2)`. -/
def stockBefore (fv : List ℚ) : ℤ := pyTrunc ((fv.take (peakIndexOf fv + 1)).sum * (12/10))

/-- `stock_after_peak = int(sum(after_peak) * 1.0)`. -/
def stockAfter (fv : List ℚ) : ℤ := pyTrunc ((fv.drop (peakIndexOf fv + 1)).sum * 1)

/-- The PEAK_STRATEGY recommendation built by rule 2. -/
def peakRec (fv : List ℚ) : Recommendation :=
  .peakStrategy (stockBefore fv) (stockAfter fv) (stockBefore fv + stockAfter fv)
    (scaleUpStock fv) (scaleUpStock fv - (stockBefore fv + stockAfter fv)) (peakIndexOf fv)
    (pyTrunc ((1 - fv.getLastD 0 / pyMax fv) * 100))

/- ---------------------------------------------------------------------
`main.py`: signal detectors
--------------------------------------------------------------------- -/

/-- `df.tail(n)` on a quantity column. -/
def pdTail (n : ℕ) (l : List ℚ) : List ℚ := l.drop (l.length - n)

/-- Result dict of `main._calculate_momentum`. -/
structure MomentumOut where
  combined : ℚ
  status : String
deriving DecidableEq, Repr

/-- `recent_7 = df.tail(7)['quantity'].mean()`. -/
def momRecent (qty : List ℚ) : ℚ := npMean (pdTail 7 qty)

/-- `previous_7 = df.tail(14).head(7)['quantity'].mean() if len(df) >= 14 else recent_7`. -/
def momPrevious (qty : List ℚ) : ℚ :=
  if qty.length ≥ 14 then npMean ((pdTail 14 qty).take 7) else momRecent qty

/-- `ratio = recent_7 / previous_7 if previous_7 > 0 else 1.0`. -/
def momRatioVal (qty : List ℚ) : ℚ :=
  if momPrevious qty > 0 then momRecent qty / momPrevious qty else 1

/-- The status ladder of `_calculate_momentum`. -/
def momStatus (r : ℚ) : String :=
  if r > 115/100 then "TRENDING_UP"
  else if r > 105/100 then "GROWING"
  else if r < 85/100 then "DECLINING"
  else if r < 95/100 then "FALLING"
  else "STABLE"

/-- `main._calculate_momentum(df)` over the chronological quantity column. -/
def calculate_momentum (qty : List ℚ) : MomentumOut :=
  if qty.length < 7 then ⟨1, "STABLE"⟩
  else ⟨pyRound3 (momRatioVal qty), momStatus (momRatioVal qty)⟩

/-- `max` of an integer list (`df['date'].max()`; callers guard emptiness). -/
def pyMaxI (l : List ℤ) : ℤ := l.maximum.unbot' 0

/-- `min` of an integer list (`df['date'].min()`). -/
def pyMinI (l : List ℤ) : ℤ := l.minimum.untop' 0

/-- Python `date.weekday()` for an epoch-day count (Monday = 0;
1970-01-01 was a Thursday, weekday 3). -/
def pyWeekday (d : ℤ) : ℤ := (d + 3).emod 7

/-- Python `round(x)` over the reals (banker's rounding). -/
noncomputable def pyRoundR (x : ℝ) : ℤ :=
  if Int.fract x = 1/2 then (if Even ⌊x⌋ then ⌊x⌋ else ⌊x⌋ + 1) else round x

/-- Python `round(x, 2)` over the reals. -/
noncomputable def pyRound2R (x : ℝ) : ℝ := (pyRoundR (x * 100) : ℝ) / 100

/-- Result dict of `main._detect_burst`. -/
structure BurstOut where
  score : ℝ
  level : String
  btype : String

/-- `np.mean` of the squared deviations: population variance (`np.std` squared). -/
def npVar (l : List ℚ) : ℚ := npMean (l.map fun x => (x - npMean l) ^ 2)

/-- `std = max(baseline.std(), 0.1)` of `_detect_burst` — the population standard
deviation of all-but-latest, floored at `0.1`.  (The `if len(baseline) > 1 else 1`
guard is dead in the `len(df) >= 5` branch, where the baseline has ≥ 4 rows.) -/
noncomputable def burstStd (df : List (ℤ × ℚ)) : ℝ :=
  max (Real.sqrt (npVar ((df.map Prod.snd).dropLast))) (1/10)

/-- `z_score = (latest - mean) / std` of `_detect_burst`. -/
noncomputable def burstZ (df : List (ℤ × ℚ)) : ℝ :=
  (((df.map Prod.snd).getLastD 0 - npMean ((df.map Prod.snd).dropLast) : ℚ) : ℝ) / burstStd df

/-- `main._detect_burst(df)`; rounding of the reported score to two decimals is
over the reals, hence noncomputable, matching the float expression. -/
noncomputable def detect_burst (df : List (ℤ × ℚ)) : BurstOut :=
  if df.length < 5 then ⟨0, "NORMAL", "NORMAL"⟩
  else
    let z := burstZ df
    let level :=
      if z > 3 then "CRITICAL"
      else if z > 2 then "HIGH"
      else if z > 3/2 then "MEDIUM"
      else "NORMAL"
    let btype :=
      if level = "NORMAL" then "NORMAL"
      else if pyWeekday (pyMaxI (df.map Prod.fst)) = 5 ∨
          pyWeekday (pyMaxI (df.map Prod.fst)) = 6 then "SEASONAL"
      else "SPIKE"
    ⟨pyRound2R z, level, btype⟩

/- ---------------------------------------------------------------------
`models/xgboost_optimal.py`
--------------------------------------------------------------------- -/

/-- A sales observation `(date, quantity)` with the date as an epoch-day count. -/
abbrev SalesRow := ℤ × ℚ

/-- `xgboost_optimal.MIN_TRAINING_DAYS`. -/
def MIN_TRAINING_DAYS : ℕ := 30

/-- `OptimalXGBoostForecaster._normalize_dataframe`: sort by date and group
same-day rows by summing their quantities, yielding one row per distinct date
in increasing date order. -/
def normalizeSales (sales_data : List SalesRow) : List SalesRow :=
  (((sales_data.map Prod.fst).dedup).insertionSort (· ≤ ·)).map fun d =>
    (d, ((sales_data.filter fun p => p.1 = d).map Prod.snd).sum)

/-- `OptimalXGBoostForecaster._fill_missing_dates`: reindex over the full
calendar range `[min date, max date]`, filling absent days with quantity `0`. -/
def fillMissingDates (df : List SalesRow) : List SalesRow :=
  if df.isEmpty then df
  else
    let lo := pyMinI (df.map Prod.fst)
    let hi := pyMaxI (df.map Prod.fst)
    (List.range (hi - lo + 1).toNat).map fun i : ℕ =>
      (lo + (i : ℤ), (toLookup df (lo + (i : ℤ))).getD 0)

/-- The three trained per-quantile regressors of a model artifact.  A trained
XGBoost regressor is an opaque learned function, so `model.predict(feature_row)`
— where `create_features` computes the feature row of the next date from the
dense working history — is modelled as an arbitrary function of that history
and date.  Every theorem below holds for every such function triple; none of
the verified claims depends on the numeric feature values. -/
structure QuantileModels where
  p10 : List SalesRow → ℤ → ℚ
  p50 : List SalesRow → ℤ → ℚ
  p90 : List SalesRow → ℤ → ℚ

/-- The forecast dict appended per day by `OptimalXGBoostForecaster.predict`. -/
structure ForecastPoint where
  date : ℤ
  lower_bound : ℚ
  predicted_quantity : ℚ
  upper_bound : ℚ
  confidence : String
deriving DecidableEq, Repr

/-- `OptimalXGBoostForecaster._confidence_from_quantiles(lower, median, upper)`. -/
def confidence_from_quantiles (lower median upper : ℚ) : String :=
  let width := max (upper - lower) 0
  let denom := max |median| 1
  if width / denom < 2/10 then "HIGH"
  else if width / denom < 4/10 then "MEDIUM"
  else "LOW"

/-- The prediction loop of `OptimalXGBoostForecaster.predict`: each step appends
a forecast for the day after the current maximum date and feeds the clamped
median back into the working history (autoregressive rollout). -/
def predictLoop (m : QuantileModels) : ℕ → List SalesRow → List ForecastPoint
  | 0, _ => []
  | n + 1, history =>
    let next_date := pyMaxI (history.map Prod.fst) + 1
    let p10 := max (m.p10 history next_date) 0
    let p50 := max (m.p50 history next_date) 0
    let p90 := max (m.p90 history next_date) p50
    ⟨next_date, p10, p50, p90, confidence_from_quantiles p10 p50 p90⟩ ::
      predictLoop m n (history ++ [(next_date, p50)])

/-- `OptimalXGBoostForecaster.predict(product_id, days)` for a product whose
artifact holds the regressors `m` and cached history `history_cache`; returns
the prediction list and `len(self.history_cache[product_id])`. -/
def predict (m : QuantileModels) (history_cache : List SalesRow) (days : ℕ) :
    List ForecastPoint × ℕ :=
  (predictLoop m days (fillMissingDates history_cache), history_cache.length)

/-- Error cases raised by `OptimalXGBoostForecaster.train` before any state is
written: `"Sales data is empty; cannot train model."` and
`f"Need at least {MIN_TRAINING_DAYS} days of data; got {len(df)} days."`. -/
inductive TrainError
  | emptyData
  | insufficientData (required actual : ℕ)
deriving DecidableEq, Repr

/-- The per-product artifact stored by a successful `train`
(`self.models[product_id]`): the fitted regressors, the trailing 30-day dense
history, and the dense row count recorded in the metadata. -/
structure TrainedArtifact where
  models : QuantileModels
  last_data : List SalesRow
  data_points : ℕ

/-- `self.models`: the per-product artifact map. -/
abbrev ModelStore := String → Option TrainedArtifact

/-- Training metadata returned by `train` (`train_test_split(test_size=0.2,
shuffle=False)` puts `ceil(n/5)` rows in the validation split). -/
structure TrainMeta where
  product_id : String
  data_points : ℕ
  train_size : ℕ
  val_size : ℕ
deriving DecidableEq, Repr

/-- `OptimalXGBoostForecaster.train(sales_data, product_id)`.  Fitting the three
regressors is the opaque `fit` argument (their learned behaviour is library
internals); everything on the error paths happens before any fit or store
write, so the incoming store is returned unchanged there. -/
def train (fit : List SalesRow → QuantileModels) (store : ModelStore)
    (sales_data : List SalesRow) (product_id : String) :
    Except TrainError TrainMeta × ModelStore :=
  let df := normalizeSales sales_data
  if df.isEmpty then (.error .emptyData, store)
  else if df.length < MIN_TRAINING_DAYS then
    (.error (.insufficientData MIN_TRAINING_DAYS df.length), store)
  else
    let dense_df := fillMissingDates df
    let n := dense_df.length
    let val_size := (n + 4) / 5
    let artifact : TrainedArtifact :=
      ⟨fit dense_df, dense_df.drop (dense_df.length - 30), n⟩
    (.ok ⟨product_id, n, n - val_size, val_size⟩,
      fun pid => if pid = product_id then some artifact else store pid)

/- ---------------------------------------------------------------------
`main.py`: statistical fallback forecaster
--------------------------------------------------------------------- -/

/-- Gregorian month and day of month for an epoch-day count (the standard
`civil_from_days` computation), embedding Python's `date.month` / `date.day`. -/
def civilOfDays (z : ℤ) : ℕ × ℕ :=
  let z' := z + 719468
  let era := z'.fdiv 146097
  let doe := (z' - era * 146097).toNat
  let yoe := (doe - doe / 1460 + doe / 36524 - doe / 146096) / 365
  let doy := doe - (365 * yoe + yoe / 4 - yoe / 100)
  let mp := (5 * doy + 2) / 153
  let d := doy - (153 * mp + 2) / 5 + 1
  let m := if mp < 10 then mp + 3 else mp - 9
  (m, d)

/-- Python `pred_date.month`. -/
def pyMonth (z : ℤ) : ℤ := (civilOfDays z).1

/-- Python `pred_date.day`. -/
def pyDay (z : ℤ) : ℤ := (civilOfDays z).2

/-- The per-tier constants of `_generate_fallback_predictions`. -/
structure FallbackTier where
  variation_scale : ℚ
  trend_sensitivity : ℚ
  dow_clamp_lo : ℚ
  dow_clamp_hi : ℚ
  confidence : String
deriving DecidableEq, Repr

/-- The data-quantity tier ladder of `_generate_fallback_predictions`. -/
def fallbackTier (data_len : ℕ) : FallbackTier :=
  if data_len ≥ 60 then ⟨1, 15/100, 80/100, 125/100, "HIGH"⟩
  else if data_len ≥ 30 then ⟨8/10, 12/100, 85/100, 120/100, "MEDIUM"⟩
  else if data_len ≥ 14 then ⟨6/10, 8/100, 88/100, 115/100, "MEDIUM"⟩
  else if data_len ≥ 7 then ⟨4/10, 5/100, 92/100, 110/100, "LOW"⟩
  else ⟨2/10, 2/100, 95/100, 105/100, "LOW"⟩

/-- `default_dow.get(day_of_week, 1.0)`. -/
def defaultDow (dow : ℤ) : ℚ :=
  if dow = 0 then 97/100
  else if dow = 1 then 93/100
  else if dow = 2 then 94/100
  else if dow = 3 then 96/100
  else if dow = 4 then 101/100
  else if dow = 5 then 108/100
  else if dow = 6 then 111/100
  else 1

/-- The `learned_dow` dict: present for a weekday exactly when the data has at
least 7 rows, a positive global mean, and some row on that weekday; the learned
factor is the weekday mean over the global mean, clamped to the tier range. -/
def learnedDow (df : List (ℤ × ℚ)) (clampLo clampHi : ℚ) (dow : ℤ) : Option ℚ :=
  if df.length ≥ 7 ∧ npMean (df.map Prod.snd) > 0 ∧
      dow ∈ df.map (fun p => pyWeekday p.1) then
    some (max clampLo (min clampHi
      (npMean ((df.filter fun p => pyWeekday p.1 = dow).map Prod.snd) /
        npMean (df.map Prod.snd))))
  else none

/-- `date_seed = (day_of_month * 3 + pred_date.month * 7 + day_of_week * 2) % 100`. -/
def dateSeed (dom month dow : ℤ) : ℤ := (dom * 3 + month * 7 + dow * 2).emod 100

/-- `variation = 1.0 + ((date_seed - 50) / 100) * (0.05 * variation_scale)`:
the deterministic pseudo-variation of the fallback forecaster, a function of
day-of-month, month and day-of-week only. -/
def variationFactor (scale : ℚ) (dom month dow : ℤ) : ℚ :=
  1 + ((dateSeed dom month dow : ℚ) - 50) / 100 * (5/100 * scale)

/-- One output row of `_generate_fallback_predictions`. -/
structure FallbackPoint where
  date : ℤ
  predicted_quantity : ℤ
  lower_bound : ℤ
  upper_bound : ℤ
  confidence : String

/-- The integer `predicted` value of loop iteration `i` of
`_generate_fallback_predictions` (before the ±1-std bounds are attached). -/
def fallbackPredDay (tier : FallbackTier) (baseline trend : ℚ) (ldow : ℤ → Option ℚ)
    (last_date : ℤ) (i : ℕ) (prev_pred : Option ℤ) : ℤ :=
  let pred_date := last_date + i
  let dow := pyWeekday pred_date
  let dom := pyDay pred_date
  let default_mult := defaultDow dow
  let dow_factor :=
    match ldow dow with
    | some learned_factor =>
      if (dow = 5 ∨ dow = 6) ∧ learned_factor < default_mult then
        let blend_toward_default := 7/10 - tier.variation_scale * (4/10)
        learned_factor * (1 - blend_toward_default) + default_mult * blend_toward_default
      else
        learned_factor * tier.variation_scale + default_mult * (1 - tier.variation_scale)
    | none => default_mult
  let payday_factor :=
    if dom ≥ 25 ∨ dom ≤ 5 then 1 + 8/100 * tier.variation_scale
    else if 12 ≤ dom ∧ dom ≤ 18 then 1 - 5/100 * tier.variation_scale
    else 1
  let base_pred := max 1 (baseline + trend * i * tier.trend_sensitivity)
  let predicted₁ := base_pred * dow_factor * payday_factor
  let predicted₂ := predicted₁ * variationFactor tier.variation_scale dom (pyMonth pred_date) dow
  let max_change := 15/100 + 15/100 * tier.variation_scale
  let predicted₃ :=
    match prev_pred with
    | some pp =>
      if (pp : ℚ) > 0 then
        if predicted₂ / pp > 1 + max_change then pp * (1 + max_change * (8/10))
        else if predicted₂ / pp < 1 - max_change then pp * (1 - max_change * (8/10))
        else predicted₂
      else predicted₂
    | none => predicted₂
  max 1 (pyRound predicted₃)

/-- The `for i in range(1, days + 1)` loop of `_generate_fallback_predictions`,
carrying `prev_pred` across iterations. -/
noncomputable def fallbackLoop (tier : FallbackTier) (baseline trend : ℚ) (std : ℝ)
    (ldow : ℤ → Option ℚ) (last_date : ℤ) :
    ℕ → ℕ → Option ℤ → List FallbackPoint
  | 0, _, _ => []
  | n + 1, i, prev_pred =>
    let predicted := fallbackPredDay tier baseline trend ldow last_date i prev_pred
    ⟨last_date + i, predicted, max 0 (pyRoundR ((predicted : ℝ) - std)),
        pyRoundR ((predicted : ℝ) + std), tier.confidence⟩ ::
      fallbackLoop tier baseline trend std ldow last_date n (i + 1) (some predicted)

/-- `np.std`-style sample variance with `ddof = 1` (`pandas .std()` squared). -/
def sampleVar (l : List ℚ) : ℚ := (l.map fun x => (x - npMean l) ^ 2).sum / (l.length - 1)

/-- `main._generate_fallback_predictions(df, days)`; the trailing standard
deviation is irrational in general, hence the `ℝ`-valued bounds. -/
noncomputable def generate_fallback_predictions (df : List (ℤ × ℚ)) (days : ℕ) :
    List FallbackPoint :=
  if df.isEmpty then []
  else
    let data_len := df.length
    let tier := fallbackTier data_len
    let recent := pdTail (min 14 data_len) (df.map Prod.snd)
    let baseline := if recent.length > 0 then npMean recent else 1
    let std : ℝ :=
      if recent.length > 1 then Real.sqrt (sampleVar recent)
      else max ((baseline : ℝ) * (2/10)) 1
    let trend : ℚ :=
      if recent.length ≥ 3 then
        let first_half := npMean (recent.take (recent.length / 2))
        let second_half := npMean (pdTail (recent.length / 2) recent)
        if first_half > 0 then (second_half - first_half) / recent.length else 0
      else 0
    let last_date := pyMaxI (df.map Prod.fst)
    fallbackLoop tier baseline trend std
      (learnedDow df tier.dow_clamp_lo tier.dow_clamp_hi) last_date days 1 none

/- ---------------------------------------------------------------------
Helper lemmas
--------------------------------------------------------------------- -/

theorem pyMaxI_eq_coe {l : List ℤ} (h : l ≠ []) : l.maximum = (pyMaxI l : WithBot ℤ) := by
  cases hm : l.maximum with
  | bot => exact absurd (List.maximum_eq_bot.mp hm) h
  | coe m => simp [pyMaxI, hm, WithBot.unbot']

theorem le_pyMaxI_of_mem {l : List ℤ} {a : ℤ} (h : a ∈ l) : a ≤ pyMaxI l := by
  have h1 := List.le_maximum_of_mem' h
  rw [pyMaxI_eq_coe (List.ne_nil_of_mem h)] at h1
  exact_mod_cast h1

theorem pyMaxI_mem {l : List ℤ} (h : l ≠ []) : pyMaxI l ∈ l :=
  List.maximum_mem (pyMaxI_eq_coe h)

theorem pyMinI_eq_coe {l : List ℤ} (h : l ≠ []) : l.minimum = (pyMinI l : WithTop ℤ) := by
  cases hm : l.minimum with
  | top => exact absurd (List.minimum_eq_top.mp hm) h
  | coe m => simp [pyMinI, hm, WithTop.untop']

theorem pyMinI_le_of_mem {l : List ℤ} {a : ℤ} (h : a ∈ l) : pyMinI l ≤ a := by
  have h1 := List.minimum_le_of_mem' h
  rw [pyMinI_eq_coe (List.ne_nil_of_mem h)] at h1
  exact_mod_cast h1

theorem pyMaxI_concat {l : List ℤ} {a : ℤ} (h : l ≠ []) :
    pyMaxI (l ++ [a]) = max (pyMaxI l) a := by
  unfold pyMaxI
  rw [List.maximum_concat, pyMaxI_eq_coe h, ← WithBot.coe_max]
  exact WithBot.unbot'_coe _ _

theorem pyMaxI_range_map (lo : ℤ) : ∀ n : ℕ,
    pyMaxI ((List.range (n + 1)).map fun i : ℕ => lo + (i : ℤ)) = lo + n := by
  intro n
  induction n with
  | zero =>
    rw [List.range_succ, List.range_zero]
    simp [pyMaxI, List.maximum_singleton, WithBot.unbot'_coe]
  | succ k ih =>
    rw [List.range_succ, List.map_append]
    simp only [List.map_cons, List.map_nil]
    rw [pyMaxI_concat (by simp)]
    rw [ih, max_eq_right (by push_cast; omega)]

/- ---------------------------------------------------------------------
C2: adaptive weights
--------------------------------------------------------------------- -/

/-- C2: `calculate_adaptive_weights` returns `{rule: 0.7, ml: 0.3}` when
`data_quality_days < 60`, `{rule: 0.3, ml: 0.7}` when `data_quality_days > 90`
and `agreement_score ≥ 0.8`, and `{rule: 0.5, ml: 0.5}` otherwise; in
particular `(45, 0.9) ↦ {0.7, 0.3}`, `(95, 0.85) ↦ {0.3, 0.7}`,
`(70, 0.5) ↦ {0.5, 0.5}`, and the boundary `(60, 0.9) ↦ {0.5, 0.5}`; every
returned weight pair sums to `1`. -/
theorem claim_C2 (days : ℤ) (score : ℚ) :
    (days < 60 → calculate_adaptive_weights days score = ⟨7/10, 3/10⟩) ∧
    (days > 90 → score ≥ 8/10 → calculate_adaptive_weights days score = ⟨3/10, 7/10⟩) ∧
    (60 ≤ days → (days ≤ 90 ∨ score < 8/10) →
      calculate_adaptive_weights days score = ⟨1/2, 1/2⟩) ∧
    calculate_adaptive_weights 45 (9/10) = ⟨7/10, 3/10⟩ ∧
    calculate_adaptive_weights 95 (85/100) = ⟨3/10, 7/10⟩ ∧
    calculate_adaptive_weights 70 (1/2) = ⟨1/2, 1/2⟩ ∧
    calculate_adaptive_weights 60 (9/10) = ⟨1/2, 1/2⟩ ∧
    (calculate_adaptive_weights days score).rule + (calculate_adaptive_weights days score).ml
      = 1 := by
  refine ⟨fun h => by simp [calculate_adaptive_weights, h],
    fun h1 h2 => ?_, fun h1 h2 => ?_,
    by norm_num [calculate_adaptive_weights],
    by norm_num [calculate_adaptive_weights],
    by norm_num [calculate_adaptive_weights],
    by norm_num [calculate_adaptive_weights], ?_⟩
  · have hn : ¬ days < 60 := by omega
    simp [calculate_adaptive_weights, hn, h1, h2]
  · have hn : ¬ days < 60 := by omega
    have hn2 : ¬ (days > 90 ∧ score ≥ 8/10) := by
      rcases h2 with h2 | h2
      · exact fun hc => absurd hc.1 (by omega)
      · exact fun hc => absurd hc.2 (not_le.mpr h2)
    simp [calculate_adaptive_weights, hn, hn2]
  · unfold calculate_adaptive_weights
    split_ifs <;> norm_num

/-- Witness for C2 at `(45, 0.9)`. -/
theorem claim_C2_witness : calculate_adaptive_weights 45 (9/10) = ⟨7/10, 3/10⟩ :=
  (claim_C2 45 (9/10)).1 (by norm_num)

/- ---------------------------------------------------------------------
C5: momentum detector
--------------------------------------------------------------------- -/

theorem momRatioVal_of_short {qty : List ℚ} (h : qty.length < 14) : momRatioVal qty = 1 := by
  have hp : momPrevious qty = momRecent qty := by simp [momPrevious, h, Nat.not_le.mpr h]
  unfold momRatioVal
  rw [hp]
  split_ifs with h'
  · exact div_self (ne_of_gt h')
  · rfl

theorem calculate_momentum_status (qty : List ℚ) :
    (calculate_momentum qty).status = momStatus (momRatioVal qty) := by
  unfold calculate_momentum
  split_ifs with h
  · rw [momRatioVal_of_short (by omega)]
    norm_num [momStatus]
  · rfl

theorem momStatus_spec (r : ℚ) :
    (momStatus r = "TRENDING_UP" ↔ r > 115/100) ∧
    (momStatus r = "GROWING" ↔ 105/100 < r ∧ r ≤ 115/100) ∧
    (momStatus r = "DECLINING" ↔ r < 85/100) ∧
    (momStatus r = "FALLING" ↔ 85/100 ≤ r ∧ r < 95/100) ∧
    (momStatus r = "STABLE" ↔ 95/100 ≤ r ∧ r ≤ 105/100) := by
  unfold momStatus
  split_ifs with h1 h2 h3 h4 <;>
    refine ⟨?_, ?_, ?_, ?_, ?_⟩ <;> simp_all <;>
    first
      | linarith
      | (intro hx; linarith)

/-- C5: the momentum detector's ratio is `mean(last 7 days) / mean(previous 7
days)`, falling back to `1.0` when fewer than 14 days are available or the
previous window mean is `0`; its status is `TRENDING_UP` iff `ratio > 1.15`,
`GROWING` iff `1.05 < ratio ≤ 1.15`, `DECLINING` iff `ratio < 0.85`, `FALLING`
iff `0.85 ≤ ratio < 0.95`, and `STABLE` otherwise; recent mean `120` vs
previous `100` gives `TRENDING_UP`, `100` vs `100` gives `STABLE`, `70` vs
`100` gives `DECLINING`. -/
theorem claim_C5 (qty : List ℚ) :
    (qty.length < 14 → momRatioVal qty = 1) ∧
    (momPrevious qty = 0 → momRatioVal qty = 1) ∧
    (momPrevious qty > 0 → momRatioVal qty = momRecent qty / momPrevious qty) ∧
    ((calculate_momentum qty).status = "TRENDING_UP" ↔ momRatioVal qty > 115/100) ∧
    ((calculate_momentum qty).status = "GROWING" ↔
      105/100 < momRatioVal qty ∧ momRatioVal qty ≤ 115/100) ∧
    ((calculate_momentum qty).status = "DECLINING" ↔ momRatioVal qty < 85/100) ∧
    ((calculate_momentum qty).status = "FALLING" ↔
      85/100 ≤ momRatioVal qty ∧ momRatioVal qty < 95/100) ∧
    ((calculate_momentum qty).status = "STABLE" ↔
      95/100 ≤ momRatioVal qty ∧ momRatioVal qty ≤ 105/100) ∧
    calculate_momentum (List.replicate 7 100 ++ List.replicate 7 120)
      = ⟨6/5, "TRENDING_UP"⟩ ∧
    calculate_momentum (List.replicate 14 (100 : ℚ)) = ⟨1, "STABLE"⟩ ∧
    calculate_momentum (List.replicate 7 100 ++ List.replicate 7 70)
      = ⟨7/10, "DECLINING"⟩ := by
  have hs := momStatus_spec (momRatioVal qty)
  rw [← calculate_momentum_status] at hs
  refine ⟨momRatioVal_of_short, fun h0 => ?_, fun hpos => ?_,
    hs.1, hs.2.1, hs.2.2.1, hs.2.2.2.1, hs.2.2.2.2, ?_, ?_, ?_⟩
  · simp [momRatioVal, h0]
  · simp [momRatioVal, hpos]
  · norm_num [calculate_momentum, momRatioVal, momPrevious, momRecent, pdTail, npMean,
      momStatus, pyRound3, pyRound, Int.fract, List.replicate, round]
  · norm_num [calculate_momentum, momRatioVal, momPrevious, momRecent, pdTail, npMean,
      momStatus, pyRound3, pyRound, Int.fract, List.replicate, round]
  · norm_num [calculate_momentum, momRatioVal, momPrevious, momRecent, pdTail, npMean,
      momStatus, pyRound3, pyRound, Int.fract, List.replicate, round]

/-- Witness for C5: a 3-day series falls back to ratio `1`. -/
theorem claim_C5_witness : momRatioVal [1, 2, 3] = 1 :=
  (claim_C5 [1, 2, 3]).1 (by simp)

/- ---------------------------------------------------------------------
C4: ensemble blending
--------------------------------------------------------------------- -/

@[simp] theorem ensRow_date (r a b c : List (ℤ × ℚ)) (w : Weights) (d : ℤ) :
    (ensRow r a b c w d).date = d := rfl

@[simp] theorem ensRow_rule_based (r a b c : List (ℤ × ℚ)) (w : Weights) (d : ℤ) :
    (ensRow r a b c w d).rule_based = ruleValAt r d := rfl

@[simp] theorem ensRow_ml_p50 (r a b c : List (ℤ × ℚ)) (w : Weights) (d : ℤ) :
    (ensRow r a b c w d).ml_p50 = p50At r b d := rfl

@[simp] theorem ensRow_predicted (r a b c : List (ℤ × ℚ)) (w : Weights) (d : ℤ) :
    (ensRow r a b c w d).predicted_quantity
      = w.rule * ruleValAt r d + w.ml * p50At r b d := rfl

theorem mem_allDates (r p : List (ℤ × ℚ)) (d : ℤ) :
    d ∈ allDates r p ↔ d ∈ r.map Prod.fst ∨ d ∈ p.map Prod.fst := by
  simp [allDates, List.mem_insertionSort, List.mem_dedup, List.mem_append]

theorem allDates_nodup (r p : List (ℤ × ℚ)) : (allDates r p).Nodup :=
  (List.perm_insertionSort _ _).nodup_iff.mpr (List.nodup_dedup _)

theorem allDates_eq_nil {r p : List (ℤ × ℚ)} (h : allDates r p = []) :
    r.map Prod.fst = [] ∧ p.map Prod.fst = [] := by
  have hp := List.perm_insertionSort (α := ℤ) (· ≤ ·)
    ((r.map Prod.fst ++ p.map Prod.fst).dedup)
  rw [show allDates r p = ((r.map Prod.fst ++ p.map Prod.fst).dedup).insertionSort (· ≤ ·)
    from rfl] at h
  rw [h] at hp
  have hd : (r.map Prod.fst ++ p.map Prod.fst).dedup = [] := hp.symm.eq_nil
  have : r.map Prod.fst ++ p.map Prod.fst = [] := by
    rwa [List.dedup_eq_nil] at hd
  exact List.append_eq_nil.mp this

theorem preds_map_date (r a b c : List (ℤ × ℚ)) (w : Weights) (dl : List ℤ) :
    (dl.map (ensRow r a b c w)).map EnsPoint.date = dl := by
  rw [List.map_map]
  simp [Function.comp_def]

theorem ens_preds (r a b c : List (ℤ × ℚ)) (w : Weights) :
    (ensemble_forecast r a b c w).predictions = (allDates r b).map (ensRow r a b c w) := by
  unfold ensemble_forecast
  cases hdl : allDates r b with
  | nil => simp
  | cons d ds => simp

theorem ens_agreement_eq (r a b c : List (ℤ × ℚ)) (w : Weights) (d : ℤ) (ds : List ℤ)
    (hdl : allDates r b = d :: ds) :
    (ensemble_forecast r a b c w).agreement_score =
      npMean (((d :: ds).map (ensRow r a b c w)).map fun q =>
        dayAgreement q.rule_based q.ml_p50) := by
  unfold ensemble_forecast
  rw [hdl]
  simp only [List.map_cons]

theorem ens_trend_eq (r a b c : List (ℤ × ℚ)) (w : Weights) (d : ℤ) (ds : List ℤ)
    (hdl : allDates r b = d :: ds) :
    (ensemble_forecast r a b c w).trend =
      (if ((ensRow r a b c w d :: ds.map (ensRow r a b c w)).getLast
            (by simp)).predicted_quantity
          > (ensRow r a b c w d).predicted_quantity * (105/100) then "INCREASING"
       else if ((ensRow r a b c w d :: ds.map (ensRow r a b c w)).getLast
            (by simp)).predicted_quantity
          < (ensRow r a b c w d).predicted_quantity * (95/100) then "DECREASING"
       else "STABLE") := by
  unfold ensemble_forecast
  rw [hdl]
  simp only [List.map_cons]

/-- C4: `ensemble_forecast` produces one output row per date in the union of
the dates of the rule source and the ML median source, blending each day as
`rule_weight × rule_value + ml_weight × ml_median` (with the source lookup
defaults of the code), with per-day agreement
`1 − min(|rule − ml_median| / max(ml_median, 1), 1)` averaged into the overall
agreement score; the overall trend is `INCREASING` iff the last blended value
exceeds the first `× 1.05`, `DECREASING` iff it is below the first `× 0.95`
(given the `INCREASING` test failed — for nonnegative first values that is
exactly "below first `× 0.95`"), and `STABLE` otherwise. -/
theorem claim_C4 (rule_pred ml_p10 ml_p50 ml_p90 : List (ℤ × ℚ)) (w : Weights)
    (out : EnsembleResult)
    (hout : out = ensemble_forecast rule_pred ml_p10 ml_p50 ml_p90 w) :
    (out.predictions.map EnsPoint.date = allDates rule_pred ml_p50) ∧
    (∀ d : ℤ, d ∈ out.predictions.map EnsPoint.date ↔
      d ∈ rule_pred.map Prod.fst ∨ d ∈ ml_p50.map Prod.fst) ∧
    (out.predictions.map EnsPoint.date).Nodup ∧
    (∀ p ∈ out.predictions,
      p.predicted_quantity
        = w.rule * ruleValAt rule_pred p.date + w.ml * p50At rule_pred ml_p50 p.date) ∧
    (out.predictions ≠ [] →
      out.agreement_score = npMean ((allDates rule_pred ml_p50).map fun d =>
        1 - min (|ruleValAt rule_pred d - p50At rule_pred ml_p50 d| /
          max (p50At rule_pred ml_p50 d) 1) 1)) ∧
    (∀ p0 pl, out.predictions.head? = some p0 → out.predictions.getLast? = some pl →
      ((out.trend = "INCREASING" ↔
          pl.predicted_quantity > p0.predicted_quantity * (105/100)) ∧
       (out.trend = "DECREASING" ↔
          (¬ pl.predicted_quantity > p0.predicted_quantity * (105/100) ∧
           pl.predicted_quantity < p0.predicted_quantity * (95/100))) ∧
       (0 ≤ p0.predicted_quantity →
         (out.trend = "DECREASING" ↔
           pl.predicted_quantity < p0.predicted_quantity * (95/100))) ∧
       (out.trend = "STABLE" ↔
          (¬ pl.predicted_quantity > p0.predicted_quantity * (105/100) ∧
           ¬ pl.predicted_quantity < p0.predicted_quantity * (95/100))))) := by
  have hpreds := ens_preds rule_pred ml_p10 ml_p50 ml_p90 w
  subst hout
  refine ⟨?_, ?_, ?_, ?_, ?_, ?_⟩
  · rw [hpreds, preds_map_date]
  · intro x
    rw [hpreds, preds_map_date, mem_allDates]
  · rw [hpreds, preds_map_date]
    exact allDates_nodup _ _
  · intro p hp
    rw [hpreds] at hp
    obtain ⟨x, _, rfl⟩ := List.mem_map.mp hp
    simp
  · intro hne
    rw [hpreds] at hne
    cases hdl : allDates rule_pred ml_p50 with
    | nil => rw [hdl] at hne; simp at hne
    | cons d ds =>
      rw [ens_agreement_eq rule_pred ml_p10 ml_p50 ml_p90 w d ds hdl, ← hdl,
        List.map_map]
      refine congrArg npMean (List.map_congr_left fun x _ => ?_)
      simp [Function.comp_def, dayAgreement]
  · intro p0 pl h0 hl
    rw [hpreds] at h0 hl
    cases hdl : allDates rule_pred ml_p50 with
    | nil => rw [hdl] at h0; simp at h0
    | cons d ds =>
      rw [hdl, List.map_cons] at h0 hl
      have hp0 : p0 = ensRow rule_pred ml_p10 ml_p50 ml_p90 w d := by
        simp only [List.head?_cons] at h0
        exact (Option.some_inj.mp h0).symm
      have hne : (ensRow rule_pred ml_p10 ml_p50 ml_p90 w d ::
          ds.map (ensRow rule_pred ml_p10 ml_p50 ml_p90 w)) ≠ [] := by simp
      have hpl : pl = (ensRow rule_pred ml_p10 ml_p50 ml_p90 w d ::
          ds.map (ensRow rule_pred ml_p10 ml_p50 ml_p90 w)).getLast hne := by
        rw [List.getLast?_eq_getLast _ hne] at hl
        exact (Option.some_inj.mp hl).symm
      rw [ens_trend_eq rule_pred ml_p10 ml_p50 ml_p90 w d ds hdl, hp0, hpl]
      split_ifs with ht1 ht2
      · exact ⟨iff_of_true rfl ht1,
          iff_of_false (by simp) (fun hc => hc.1 ht1),
          fun _ => iff_of_false (by simp) (by intro hc; linarith),
          iff_of_false (by simp) (fun hc => hc.1 ht1)⟩
      · exact ⟨iff_of_false (by simp) ht1,
          iff_of_true rfl ⟨ht1, ht2⟩,
          fun _ => iff_of_true rfl ht2,
          iff_of_false (by simp) (fun hc => hc.2 ht2)⟩
      · exact ⟨iff_of_false (by simp) ht1,
          iff_of_false (by simp) (fun hc => ht2 hc.2),
          fun _ => iff_of_false (by simp) ht2,
          iff_of_true rfl ⟨ht1, ht2⟩⟩

/-- Witness for C4 on a concrete two-source input. -/
theorem claim_C4_witness :
    ((ensemble_forecast [(0, 10)] [] [(1, 20)] [] ⟨1/2, 1/2⟩).predictions.map EnsPoint.date
      = allDates [(0, 10)] [(1, 20)]) ∧
    ((0:ℤ) ∈ (ensemble_forecast [(0, 10)] [] [(1, 20)] [] ⟨1/2, 1/2⟩).predictions.map
      EnsPoint.date ↔
      (0:ℤ) ∈ ([(0, 10)] : List (ℤ × ℚ)).map Prod.fst ∨
      (0:ℤ) ∈ ([(1, 20)] : List (ℤ × ℚ)).map Prod.fst) :=
  ⟨(claim_C4 [(0, 10)] [] [(1, 20)] [] ⟨1/2, 1/2⟩ _ rfl).1,
   (claim_C4 [(0, 10)] [] [(1, 20)] [] ⟨1/2, 1/2⟩ _ rfl).2.1 0⟩

/- ---------------------------------------------------------------------
C7 / C8 / C10: recommendation engine
--------------------------------------------------------------------- -/

theorem genRecs_nil (b : BurstInfo) (m : MomentumInfo) :
    generate_recommendations b m [] = some [] := rfl

theorem genRecs_rule1 (b : BurstInfo) (m : MomentumInfo) (e : EnsPoint) (es : List EnsPoint)
    (h : b.severity = some "CRITICAL" ∧ trendDir (forecastValues (e :: es)) = "INCREASING" ∧
      e.confidence = "HIGH") :
    generate_recommendations b m (e :: es) =
      some [.scaleUp (scaleUpStock (forecastValues (e :: es)))] := by
  simp [generate_recommendations, h, scaleUpStock, List.insertionSort, List.orderedInsert]

theorem genRecs_rule2 (b : BurstInfo) (m : MomentumInfo) (e : EnsPoint) (es : List EnsPoint)
    (h1 : ¬ (b.severity = some "CRITICAL" ∧
      trendDir (forecastValues (e :: es)) = "INCREASING" ∧ e.confidence = "HIGH"))
    (h2 : peakIndexOf (forecastValues (e :: es)) < (forecastValues (e :: es)).length - 2 ∧
      (forecastValues (e :: es)).getLastD 0 < pyMax (forecastValues (e :: es)) * (75/100))
    (h0 : ¬ pyMax (forecastValues (e :: es)) = 0) :
    generate_recommendations b m (e :: es) =
      some [peakRec (forecastValues (e :: es))] := by
  unfold generate_recommendations
  dsimp only
  rw [if_neg h1, if_pos h2, if_neg h0]
  rfl

theorem genRecs_rule2_crash (b : BurstInfo) (m : MomentumInfo) (e : EnsPoint)
    (es : List EnsPoint)
    (h1 : ¬ (b.severity = some "CRITICAL" ∧
      trendDir (forecastValues (e :: es)) = "INCREASING" ∧ e.confidence = "HIGH"))
    (h2 : peakIndexOf (forecastValues (e :: es)) < (forecastValues (e :: es)).length - 2 ∧
      (forecastValues (e :: es)).getLastD 0 < pyMax (forecastValues (e :: es)) * (75/100))
    (h0 : pyMax (forecastValues (e :: es)) = 0) :
    generate_recommendations b m (e :: es) = none := by
  unfold generate_recommendations
  dsimp only
  rw [if_neg h1, if_pos h2, if_pos h0]
  rfl

theorem genRecs_rule3 (b : BurstInfo) (m : MomentumInfo) (e : EnsPoint) (es : List EnsPoint)
    (h1 : ¬ (b.severity = some "CRITICAL" ∧
      trendDir (forecastValues (e :: es)) = "INCREASING" ∧ e.confidence = "HIGH"))
    (h2 : ¬ (peakIndexOf (forecastValues (e :: es)) < (forecastValues (e :: es)).length - 2 ∧
      (forecastValues (e :: es)).getLastD 0 < pyMax (forecastValues (e :: es)) * (75/100)))
    (h3 : m.status = some "DECLINING" ∧ trendDir (forecastValues (e :: es)) = "DECREASING") :
    generate_recommendations b m (e :: es) = some [.intervention] := by
  unfold generate_recommendations
  dsimp only
  rw [if_neg h1, if_neg h2, if_pos h3]
  rfl

theorem genRecs_rule4 (b : BurstInfo) (m : MomentumInfo) (e : EnsPoint) (es : List EnsPoint)
    (h1 : ¬ (b.severity = some "CRITICAL" ∧
      trendDir (forecastValues (e :: es)) = "INCREASING" ∧ e.confidence = "HIGH"))
    (h2 : ¬ (peakIndexOf (forecastValues (e :: es)) < (forecastValues (e :: es)).length - 2 ∧
      (forecastValues (e :: es)).getLastD 0 < pyMax (forecastValues (e :: es)) * (75/100)))
    (h3 : ¬ (m.status = some "DECLINING" ∧
      trendDir (forecastValues (e :: es)) = "DECREASING"))
    (h4 : m.status = some "STABLE" ∧ e.confidence = "HIGH") :
    generate_recommendations b m (e :: es) =
      some [.optimize (pyTrunc ((forecastValues (e :: es)).sum / 7 * 3))] := by
  unfold generate_recommendations
  dsimp only
  rw [if_neg h1, if_neg h2, if_neg h3, if_pos h4]
  rfl

theorem genRecs_rule5 (b : BurstInfo) (m : MomentumInfo) (e : EnsPoint) (es : List EnsPoint)
    (h1 : ¬ (b.severity = some "CRITICAL" ∧
      trendDir (forecastValues (e :: es)) = "INCREASING" ∧ e.confidence = "HIGH"))
    (h2 : ¬ (peakIndexOf (forecastValues (e :: es)) < (forecastValues (e :: es)).length - 2 ∧
      (forecastValues (e :: es)).getLastD 0 < pyMax (forecastValues (e :: es)) * (75/100)))
    (h3 : ¬ (m.status = some "DECLINING" ∧
      trendDir (forecastValues (e :: es)) = "DECREASING"))
    (h4 : ¬ (m.status = some "STABLE" ∧ e.confidence = "HIGH")) :
    generate_recommendations b m (e :: es) =
      some [.standard (pyTrunc (forecastValues (e :: es)).sum)
        (pyTrunc ((forecastValues (e :: es)).sum / 7))] := by
  unfold generate_recommendations
  dsimp only
  rw [if_neg h1, if_neg h2, if_neg h3, if_neg h4]
  rfl

theorem getLastD_mem_of_ne_nil {l : List ℚ} (h : l ≠ []) : l.getLastD 0 ∈ l := by
  rw [List.getLastD_eq_getLast?, List.getLast?_eq_getLast _ h]
  simp [List.getLast_mem]

theorem fvLast_nonneg (e : EnsPoint) (es : List EnsPoint)
    (hnn : ∀ p ∈ e :: es, (0:ℚ) ≤ p.forecast) :
    0 ≤ (forecastValues (e :: es)).getLastD 0 := by
  have hne : forecastValues (e :: es) ≠ [] := by simp [forecastValues]
  obtain ⟨p, hp, heq⟩ := List.mem_map.mp (getLastD_mem_of_ne_nil hne)
  exact heq ▸ hnn p hp

theorem pyMax_ne_zero_of_decline (e : EnsPoint) (es : List EnsPoint)
    (hnn : ∀ p ∈ e :: es, (0:ℚ) ≤ p.forecast)
    (h2b : (forecastValues (e :: es)).getLastD 0 <
      pyMax (forecastValues (e :: es)) * (75/100)) :
    ¬ pyMax (forecastValues (e :: es)) = 0 := by
  intro h0
  have hge := fvLast_nonneg e es hnn
  rw [h0, zero_mul] at h2b
  exact absurd h2b (not_lt.mpr hge)

/-- The complete branch structure of `generate_recommendations` on a non-empty
ensemble list. -/
theorem genRecs_cases (b : BurstInfo) (m : MomentumInfo) (e : EnsPoint)
    (es : List EnsPoint) :
    ((b.severity = some "CRITICAL" ∧ trendDir (forecastValues (e :: es)) = "INCREASING" ∧
        e.confidence = "HIGH") ∧
      generate_recommendations b m (e :: es) =
        some [.scaleUp (scaleUpStock (forecastValues (e :: es)))]) ∨
    (¬ (b.severity = some "CRITICAL" ∧ trendDir (forecastValues (e :: es)) = "INCREASING" ∧
        e.confidence = "HIGH") ∧
      (peakIndexOf (forecastValues (e :: es)) < (forecastValues (e :: es)).length - 2 ∧
        (forecastValues (e :: es)).getLastD 0 < pyMax (forecastValues (e :: es)) * (75/100)) ∧
      pyMax (forecastValues (e :: es)) = 0 ∧
      generate_recommendations b m (e :: es) = none) ∨
    (¬ (b.severity = some "CRITICAL" ∧ trendDir (forecastValues (e :: es)) = "INCREASING" ∧
        e.confidence = "HIGH") ∧
      (peakIndexOf (forecastValues (e :: es)) < (forecastValues (e :: es)).length - 2 ∧
        (forecastValues (e :: es)).getLastD 0 < pyMax (forecastValues (e :: es)) * (75/100)) ∧
      ¬ pyMax (forecastValues (e :: es)) = 0 ∧
      generate_recommendations b m (e :: es) = some [peakRec (forecastValues (e :: es))]) ∨
    (¬ (b.severity = some "CRITICAL" ∧ trendDir (forecastValues (e :: es)) = "INCREASING" ∧
        e.confidence = "HIGH") ∧
      ¬ (peakIndexOf (forecastValues (e :: es)) < (forecastValues (e :: es)).length - 2 ∧
        (forecastValues (e :: es)).getLastD 0 < pyMax (forecastValues (e :: es)) * (75/100)) ∧
      (m.status = some "DECLINING" ∧ trendDir (forecastValues (e :: es)) = "DECREASING") ∧
      generate_recommendations b m (e :: es) = some [.intervention]) ∨
    (¬ (b.severity = some "CRITICAL" ∧ trendDir (forecastValues (e :: es)) = "INCREASING" ∧
        e.confidence = "HIGH") ∧
      ¬ (peakIndexOf (forecastValues (e :: es)) < (forecastValues (e :: es)).length - 2 ∧
        (forecastValues (e :: es)).getLastD 0 < pyMax (forecastValues (e :: es)) * (75/100)) ∧
      ¬ (m.status = some "DECLINING" ∧ trendDir (forecastValues (e :: es)) = "DECREASING") ∧
      (m.status = some "STABLE" ∧ e.confidence = "HIGH") ∧
      generate_recommendations b m (e :: es) =
        some [.optimize (pyTrunc ((forecastValues (e :: es)).sum / 7 * 3))]) ∨
    (¬ (b.severity = some "CRITICAL" ∧ trendDir (forecastValues (e :: es)) = "INCREASING" ∧
        e.confidence = "HIGH") ∧
      ¬ (peakIndexOf (forecastValues (e :: es)) < (forecastValues (e :: es)).length - 2 ∧
        (forecastValues (e :: es)).getLastD 0 < pyMax (forecastValues (e :: es)) * (75/100)) ∧
      ¬ (m.status = some "DECLINING" ∧ trendDir (forecastValues (e :: es)) = "DECREASING") ∧
      ¬ (m.status = some "STABLE" ∧ e.confidence = "HIGH") ∧
      generate_recommendations b m (e :: es) =
        some [.standard (pyTrunc (forecastValues (e :: es)).sum)
          (pyTrunc ((forecastValues (e :: es)).sum / 7))]) := by
  by_cases h1 : b.severity = some "CRITICAL" ∧
      trendDir (forecastValues (e :: es)) = "INCREASING" ∧ e.confidence = "HIGH"
  · exact Or.inl ⟨h1, genRecs_rule1 b m e es h1⟩
  by_cases h2 : peakIndexOf (forecastValues (e :: es)) < (forecastValues (e :: es)).length - 2 ∧
      (forecastValues (e :: es)).getLastD 0 < pyMax (forecastValues (e :: es)) * (75/100)
  · by_cases h0 : pyMax (forecastValues (e :: es)) = 0
    · exact Or.inr (Or.inl ⟨h1, h2, h0, genRecs_rule2_crash b m e es h1 h2 h0⟩)
    · exact Or.inr (Or.inr (Or.inl ⟨h1, h2, h0, genRecs_rule2 b m e es h1 h2 h0⟩))
  by_cases h3 : m.status = some "DECLINING" ∧ trendDir (forecastValues (e :: es)) = "DECREASING"
  · exact Or.inr (Or.inr (Or.inr (Or.inl ⟨h1, h2, h3, genRecs_rule3 b m e es h1 h2 h3⟩)))
  by_cases h4 : m.status = some "STABLE" ∧ e.confidence = "HIGH"
  · exact Or.inr (Or.inr (Or.inr (Or.inr (Or.inl
      ⟨h1, h2, h3, h4, genRecs_rule4 b m e es h1 h2 h3 h4⟩))))
  · exact Or.inr (Or.inr (Or.inr (Or.inr (Or.inr
      ⟨h1, h2, h3, h4, genRecs_rule5 b m e es h1 h2 h3 h4⟩))))

theorem pyMax_eq_coe {l : List ℚ} (h : l ≠ []) : l.maximum = (pyMax l : WithBot ℚ) := by
  cases hm : l.maximum with
  | bot => exact absurd (List.maximum_eq_bot.mp hm) h
  | coe q => simp [pyMax, hm, WithBot.unbot']

theorem le_pyMax_of_mem {l : List ℚ} {a : ℚ} (h : a ∈ l) : a ≤ pyMax l := by
  have h1 := List.le_maximum_of_mem' h
  rw [pyMax_eq_coe (List.ne_nil_of_mem h)] at h1
  exact_mod_cast h1

theorem pyMax_mem {l : List ℚ} (h : l ≠ []) : pyMax l ∈ l :=
  List.maximum_mem (pyMax_eq_coe h)

/-- C7: the recommendation rules are evaluated in fixed priority order with the
first match winning; a SCALE_UP (URGENT) recommendation is produced exactly
when burst severity is CRITICAL, the forecast trend is INCREASING, and day-1
confidence is HIGH, recommending stock `int(1.3 × 7-day blended total)`; every
returned list is sorted by the priority rank
URGENT < HIGH < PENTING < MEDIUM < RENDAH. -/
theorem claim_C7 (b : BurstInfo) (m : MomentumInfo) (e : EnsPoint) (es : List EnsPoint) :
    ((b.severity = some "CRITICAL" ∧ trendDir (forecastValues (e :: es)) = "INCREASING" ∧
        e.confidence = "HIGH") →
      generate_recommendations b m (e :: es) =
        some [.scaleUp (scaleUpStock (forecastValues (e :: es)))]) ∧
    ((∃ l r, generate_recommendations b m (e :: es) = some l ∧ r ∈ l ∧
        r.typeName = "SCALE_UP") ↔
      (b.severity = some "CRITICAL" ∧ trendDir (forecastValues (e :: es)) = "INCREASING" ∧
        e.confidence = "HIGH")) ∧
    (∀ l, generate_recommendations b m (e :: es) = some l →
      l.Sorted fun a c => priorityRank a.priority ≤ priorityRank c.priority) := by
  rcases genRecs_cases b m e es with ⟨hA, hres⟩ | ⟨hA, _, _, hres⟩ | ⟨hA, _, _, hres⟩ |
    ⟨hA, _, _, hres⟩ | ⟨hA, _, _, _, hres⟩ | ⟨hA, _, _, _, hres⟩
  · refine ⟨fun _ => hres,
      iff_of_true ⟨_, _, hres, List.mem_singleton_self _, rfl⟩ hA, ?_⟩
    intro l hl
    rw [hres] at hl
    obtain rfl := Option.some_inj.mp hl
    exact List.sorted_singleton _
  · refine ⟨fun hc => absurd hc hA, iff_of_false ?_ hA, ?_⟩
    · rintro ⟨l, r, hres', _, _⟩
      rw [hres] at hres'
      exact Option.noConfusion hres'
    · intro l hl
      rw [hres] at hl
      exact Option.noConfusion hl
  · refine ⟨fun hc => absurd hc hA, iff_of_false ?_ hA, ?_⟩
    · rintro ⟨l, r, hres', hmem, hty⟩
      rw [hres] at hres'
      obtain rfl := Option.some_inj.mp hres'
      obtain rfl := List.mem_singleton.mp hmem
      simp [peakRec, Recommendation.typeName] at hty
    · intro l hl
      rw [hres] at hl
      obtain rfl := Option.some_inj.mp hl
      exact List.sorted_singleton _
  · refine ⟨fun hc => absurd hc hA, iff_of_false ?_ hA, ?_⟩
    · rintro ⟨l, r, hres', hmem, hty⟩
      rw [hres] at hres'
      obtain rfl := Option.some_inj.mp hres'
      obtain rfl := List.mem_singleton.mp hmem
      simp [Recommendation.typeName] at hty
    · intro l hl
      rw [hres] at hl
      obtain rfl := Option.some_inj.mp hl
      exact List.sorted_singleton _
  · refine ⟨fun hc => absurd hc hA, iff_of_false ?_ hA, ?_⟩
    · rintro ⟨l, r, hres', hmem, hty⟩
      rw [hres] at hres'
      obtain rfl := Option.some_inj.mp hres'
      obtain rfl := List.mem_singleton.mp hmem
      simp [Recommendation.typeName] at hty
    · intro l hl
      rw [hres] at hl
      obtain rfl := Option.some_inj.mp hl
      exact List.sorted_singleton _
  · refine ⟨fun hc => absurd hc hA, iff_of_false ?_ hA, ?_⟩
    · rintro ⟨l, r, hres', hmem, hty⟩
      rw [hres] at hres'
      obtain rfl := Option.some_inj.mp hres'
      obtain rfl := List.mem_singleton.mp hmem
      simp [Recommendation.typeName] at hty
    · intro l hl
      rw [hres] at hl
      obtain rfl := Option.some_inj.mp hl
      exact List.sorted_singleton _

/-- Witness for C7: a CRITICAL burst with rising forecast and HIGH day-1
confidence yields exactly the URGENT scale-up advice of 130% of the total. -/
theorem claim_C7_witness :
    generate_recommendations ⟨some "CRITICAL", 0⟩ ⟨none, 0⟩
      [⟨0, 0, 0, 0, 0, 10, 10, 0, 0, "HIGH"⟩, ⟨1, 0, 0, 0, 0, 20, 20, 0, 0, "LOW"⟩] =
      some [.scaleUp 39] := by
  have h := (claim_C7 ⟨some "CRITICAL", 0⟩ ⟨none, 0⟩
    ⟨0, 0, 0, 0, 0, 10, 10, 0, 0, "HIGH"⟩ [⟨1, 0, 0, 0, 0, 20, 20, 0, 0, "LOW"⟩]).1
    ⟨rfl, by norm_num [trendDir, forecastValues], rfl⟩
  rw [h]
  norm_num [scaleUpStock, forecastValues, pyTrunc]

/-- C8: a PEAK_STRATEGY (HIGH) recommendation is produced exactly when the
SCALE_UP rule did not fire, the (first) forecast peak occurs strictly before
the last two horizon days, and the final day's value is below 75% of the peak;
the pre-peak phase stock is `int(1.2 × pre-peak sub-total)`, the post-peak
phase stock is `int(1.0 × post-peak sub-total)`, and the reported savings equal
the naive stocking total minus the phased total. -/
theorem claim_C8 (b : BurstInfo) (m : MomentumInfo) (e : EnsPoint) (es : List EnsPoint)
    (hnn : ∀ p ∈ e :: es, (0:ℚ) ≤ p.forecast) :
    ((∃ l r, generate_recommendations b m (e :: es) = some l ∧ r ∈ l ∧
        r.typeName = "PEAK_STRATEGY") ↔
      (¬ (b.severity = some "CRITICAL" ∧ trendDir (forecastValues (e :: es)) = "INCREASING" ∧
          e.confidence = "HIGH") ∧
        peakIndexOf (forecastValues (e :: es)) < (forecastValues (e :: es)).length - 2 ∧
        (forecastValues (e :: es)).getLastD 0 <
          pyMax (forecastValues (e :: es)) * (75/100))) ∧
    (¬ (b.severity = some "CRITICAL" ∧ trendDir (forecastValues (e :: es)) = "INCREASING" ∧
        e.confidence = "HIGH") →
      (peakIndexOf (forecastValues (e :: es)) < (forecastValues (e :: es)).length - 2 ∧
        (forecastValues (e :: es)).getLastD 0 <
          pyMax (forecastValues (e :: es)) * (75/100)) →
      generate_recommendations b m (e :: es) =
        some [peakRec (forecastValues (e :: es))]) ∧
    peakRec (forecastValues (e :: es)) = .peakStrategy
      (stockBefore (forecastValues (e :: es))) (stockAfter (forecastValues (e :: es)))
      (stockBefore (forecastValues (e :: es)) + stockAfter (forecastValues (e :: es)))
      (scaleUpStock (forecastValues (e :: es)))
      (scaleUpStock (forecastValues (e :: es)) -
        (stockBefore (forecastValues (e :: es)) + stockAfter (forecastValues (e :: es))))
      (peakIndexOf (forecastValues (e :: es)))
      (pyTrunc ((1 - (forecastValues (e :: es)).getLastD 0 /
        pyMax (forecastValues (e :: es))) * 100)) := by
  refine ⟨⟨?_, ?_⟩, fun h1 h2 => genRecs_rule2 b m e es h1 h2
    (pyMax_ne_zero_of_decline e es hnn h2.2), rfl⟩
  · rintro ⟨l, r, hres', hmem, hty⟩
    rcases genRecs_cases b m e es with ⟨hA, hres⟩ | ⟨hA, h2, h0, hres⟩ | ⟨hA, h2, h0, hres⟩ |
      ⟨hA, h2, _, hres⟩ | ⟨hA, h2, _, _, hres⟩ | ⟨hA, h2, _, _, hres⟩
    · rw [hres] at hres'
      obtain rfl := Option.some_inj.mp hres'
      obtain rfl := List.mem_singleton.mp hmem
      simp [Recommendation.typeName] at hty
    · rw [hres] at hres'
      exact Option.noConfusion hres'
    · exact ⟨hA, h2⟩
    · rw [hres] at hres'
      obtain rfl := Option.some_inj.mp hres'
      obtain rfl := List.mem_singleton.mp hmem
      simp [Recommendation.typeName] at hty
    · rw [hres] at hres'
      obtain rfl := Option.some_inj.mp hres'
      obtain rfl := List.mem_singleton.mp hmem
      simp [Recommendation.typeName] at hty
    · rw [hres] at hres'
      obtain rfl := Option.some_inj.mp hres'
      obtain rfl := List.mem_singleton.mp hmem
      simp [Recommendation.typeName] at hty
  · rintro ⟨h1, h2⟩
    exact ⟨_, _, genRecs_rule2 b m e es h1 h2 (pyMax_ne_zero_of_decline e es hnn h2.2),
      List.mem_singleton_self _, rfl⟩

/-- Witness for C8: forecast `[10, 10, 2]` (peak on day 1, 80% final decline)
with no viral burst yields the two-phase strategy `12 + 12` vs naive `28`,
saving `4`. -/
theorem claim_C8_witness :
    generate_recommendations ⟨none, 0⟩ ⟨none, 0⟩
      [⟨0, 0, 0, 0, 0, 10, 10, 0, 0, "LOW"⟩, ⟨1, 0, 0, 0, 0, 10, 10, 0, 0, "LOW"⟩,
       ⟨2, 0, 0, 0, 0, 2, 2, 0, 0, "LOW"⟩] =
      some [.peakStrategy 12 12 24 28 4 0 80] := by
  have hfv : forecastValues
      [⟨0, 0, 0, 0, 0, 10, 10, 0, 0, "LOW"⟩, ⟨1, 0, 0, 0, 0, 10, 10, 0, 0, "LOW"⟩,
       ⟨2, 0, 0, 0, 0, 2, 2, 0, 0, "LOW"⟩] = [10, 10, 2] := by
    simp [forecastValues]
  have hmax : pyMax [(10:ℚ), 10, 2] = 10 := by
    have hle := le_pyMax_of_mem (l := [(10:ℚ), 10, 2]) (a := 10) (by simp)
    have hm := pyMax_mem (l := [(10:ℚ), 10, 2]) (by simp)
    simp at hm
    rcases hm with h | h
    · exact h
    · rw [h] at hle
      linarith
  have hpeak : peakIndexOf [(10:ℚ), 10, 2] = 0 := by
    rw [peakIndexOf, hmax]
    decide
  have h := (claim_C8 ⟨none, 0⟩ ⟨none, 0⟩
      ⟨0, 0, 0, 0, 0, 10, 10, 0, 0, "LOW"⟩
      [⟨1, 0, 0, 0, 0, 10, 10, 0, 0, "LOW"⟩, ⟨2, 0, 0, 0, 0, 2, 2, 0, 0, "LOW"⟩]
      (by rintro p hp; simp at hp; rcases hp with rfl | rfl | rfl <;> norm_num)).2.1
    (by simp)
    (by
      rw [hfv, hpeak, hmax]
      refine ⟨by norm_num, ?_⟩
      norm_num)
  rw [hfv] at h
  rw [h]
  norm_num [peakRec, stockBefore, stockAfter, scaleUpStock, pyTrunc, hpeak, hmax]

/-- C10 (amended): for every non-empty blended forecast list whose values are
nonnegative, `generate_recommendations` returns exactly one recommendation
(the five rules are an exhaustive first-match chain ending in the STANDARD
default), and for an empty list it returns the empty list. -/
theorem claim_C10 (b : BurstInfo) (m : MomentumInfo) (ens : List EnsPoint)
    (hnn : ∀ p ∈ ens, (0:ℚ) ≤ p.forecast) :
    (ens ≠ [] → ∃ r, generate_recommendations b m ens = some [r]) ∧
    generate_recommendations b m [] = some [] := by
  refine ⟨fun hne => ?_, genRecs_nil b m⟩
  cases ens with
  | nil => exact absurd rfl hne
  | cons e es =>
    rcases genRecs_cases b m e es with ⟨_, hres⟩ | ⟨_, h2, h0, _⟩ | ⟨_, _, _, hres⟩ |
      ⟨_, _, _, hres⟩ | ⟨_, _, _, _, hres⟩ | ⟨_, _, _, _, hres⟩
    · exact ⟨_, hres⟩
    · exact absurd h0 (pyMax_ne_zero_of_decline e es hnn h2.2)
    · exact ⟨_, hres⟩
    · exact ⟨_, hres⟩
    · exact ⟨_, hres⟩
    · exact ⟨_, hres⟩

/-- Witness for C10 on a one-day nonnegative forecast. -/
theorem claim_C10_witness :
    ∃ r, generate_recommendations ⟨none, 0⟩ ⟨none, 0⟩
      [⟨0, 0, 0, 0, 0, 5, 5, 0, 0, "LOW"⟩] = some [r] :=
  (claim_C10 ⟨none, 0⟩ ⟨none, 0⟩ [⟨0, 0, 0, 0, 0, 5, 5, 0, 0, "LOW"⟩]
    (by rintro p hp; simp at hp; subst hp; norm_num)).1 (by simp)

/-- Counterexample for C10 as frozen: on the non-empty blended list with
forecasts `[0, 0, -1]` (and a non-CRITICAL burst), the Python function raises
`ZeroDivisionError` while formatting the peak-strategy message
(`forecast_values[-1] / peak_value` with `peak_value = 0`), so no
recommendation list is returned at all. -/
theorem claim_C10_counterexample :
    generate_recommendations ⟨some "NORMAL", 0⟩ ⟨some "NORMAL", 0⟩
      [⟨0, 0, 0, 0, 0, 0, 0, 0, 0, "LOW"⟩, ⟨1, 0, 0, 0, 0, 0, 0, 0, 0, "LOW"⟩,
       ⟨2, 0, 0, 0, 0, -1, -1, 0, 0, "LOW"⟩] = none := by
  have hfv : forecastValues
      [⟨0, 0, 0, 0, 0, 0, 0, 0, 0, "LOW"⟩, ⟨1, 0, 0, 0, 0, 0, 0, 0, 0, "LOW"⟩,
       ⟨2, 0, 0, 0, 0, -1, -1, 0, 0, "LOW"⟩] = [0, 0, -1] := by
    simp [forecastValues]
  have hmax : pyMax [(0:ℚ), 0, -1] = 0 := by
    have hle := le_pyMax_of_mem (l := [(0:ℚ), 0, -1]) (a := 0) (by simp)
    have hm := pyMax_mem (l := [(0:ℚ), 0, -1]) (by simp)
    simp at hm
    rcases hm with h | h
    · exact h
    · rw [h] at hle
      linarith
  have hpeak : peakIndexOf [(0:ℚ), 0, -1] = 0 := by
    rw [peakIndexOf, hmax]
    decide
  apply genRecs_rule2_crash
  · simp
  · rw [hfv, hpeak, hmax]
    refine ⟨by norm_num, ?_⟩
    norm_num
  · rw [hfv]
    exact hmax

/- ---------------------------------------------------------------------
C1: autoregressive prediction
--------------------------------------------------------------------- -/

theorem lo_le_hi {l : List ℤ} (h : l ≠ []) : pyMinI l ≤ pyMaxI l :=
  pyMinI_le_of_mem (pyMaxI_mem h)

theorem fillMissingDates_ne_nil {df : List SalesRow} (h : df ≠ []) :
    fillMissingDates df ≠ [] := by
  have hmf : df.map Prod.fst ≠ [] := by simpa using h
  have hlh := lo_le_hi hmf
  unfold fillMissingDates
  rw [if_neg (by simpa [List.isEmpty_iff] using h)]
  have : (pyMaxI (df.map Prod.fst) - pyMinI (df.map Prod.fst) + 1).toNat ≠ 0 := by omega
  simp [List.range_eq_nil, this]

theorem fillMissingDates_maxDate {df : List SalesRow} (h : df ≠ []) :
    pyMaxI ((fillMissingDates df).map Prod.fst) = pyMaxI (df.map Prod.fst) := by
  have hmf : df.map Prod.fst ≠ [] := by simpa using h
  have hlh := lo_le_hi hmf
  unfold fillMissingDates
  rw [if_neg (by simpa [List.isEmpty_iff] using h)]
  rw [List.map_map]
  have hc : (Prod.fst ∘ fun i : ℕ =>
      (pyMinI (df.map Prod.fst) + (i:ℤ),
        (toLookup df (pyMinI (df.map Prod.fst) + (i:ℤ))).getD 0)) =
      fun i : ℕ => pyMinI (df.map Prod.fst) + (i:ℤ) := rfl
  rw [hc]
  have hn : (pyMaxI (df.map Prod.fst) - pyMinI (df.map Prod.fst) + 1).toNat
      = (pyMaxI (df.map Prod.fst) - pyMinI (df.map Prod.fst)).toNat + 1 := by omega
  rw [hn, pyMaxI_range_map]
  omega

theorem predictLoop_length (m : QuantileModels) :
    ∀ (days : ℕ) (hist : List SalesRow), (predictLoop m days hist).length = days := by
  intro days
  induction days with
  | zero => intro hist; rfl
  | succ n ih => intro hist; simp [predictLoop, ih]

theorem predictLoop_dates (m : QuantileModels) :
    ∀ (days : ℕ) (hist : List SalesRow), hist ≠ [] →
      ∀ (i : ℕ) (h : i < (predictLoop m days hist).length),
      ((predictLoop m days hist).get ⟨i, h⟩).date = pyMaxI (hist.map Prod.fst) + 1 + i := by
  intro days
  induction days with
  | zero => intro hist _ i h; simp [predictLoop] at h
  | succ n ih =>
    intro hist hne i h
    cases i with
    | zero => simp [predictLoop]
    | succ j =>
      have hmf : hist.map Prod.fst ≠ [] := by simpa using hne
      have hmax : pyMaxI ((hist ++ [(pyMaxI (hist.map Prod.fst) + 1,
          max (m.p50 hist (pyMaxI (hist.map Prod.fst) + 1)) 0)]).map Prod.fst)
          = pyMaxI (hist.map Prod.fst) + 1 := by
        rw [List.map_append]
        simp only [List.map_cons, List.map_nil]
        rw [pyMaxI_concat hmf, max_eq_right (by omega)]
      have hj : j < (predictLoop m n (hist ++ [(pyMaxI (hist.map Prod.fst) + 1,
          max (m.p50 hist (pyMaxI (hist.map Prod.fst) + 1)) 0)])).length := by
        rw [predictLoop_length m (n + 1) hist] at h
        rw [predictLoop_length]
        omega
      have := ih (hist ++ [(pyMaxI (hist.map Prod.fst) + 1,
          max (m.p50 hist (pyMaxI (hist.map Prod.fst) + 1)) 0)]) (by simp) j hj
      rw [hmax] at this
      simpa [predictLoop] using this.trans (by ring)

theorem predictLoop_bounds (m : QuantileModels) :
    ∀ (days : ℕ) (hist : List SalesRow), ∀ p ∈ predictLoop m days hist,
      0 ≤ p.lower_bound ∧ 0 ≤ p.predicted_quantity ∧
        p.predicted_quantity ≤ p.upper_bound := by
  intro days
  induction days with
  | zero => intro hist p hp; simp [predictLoop] at hp
  | succ n ih =>
    intro hist p hp
    rcases List.mem_cons.mp hp with rfl | hp'
    · exact ⟨le_max_right _ _, le_max_right _ _, le_max_right _ _⟩
    · exact ih _ p hp'

theorem predictLoop_lower (m : QuantileModels)
    (hm : ∀ h d, m.p10 h d ≤ max (m.p50 h d) 0) :
    ∀ (days : ℕ) (hist : List SalesRow), ∀ p ∈ predictLoop m days hist,
      p.lower_bound ≤ p.predicted_quantity := by
  intro days
  induction days with
  | zero => intro hist p hp; simp [predictLoop] at hp
  | succ n ih =>
    intro hist p hp
    rcases List.mem_cons.mp hp with rfl | hp'
    · exact max_le (hm _ _) (le_max_right _ _)
    · exact ih _ p hp'

/-- C1 (amended): for every trained quantile-model triple and every horizon,
`predict` returns exactly `days` forecast points whose dates are the strictly
increasing consecutive calendar days starting the day after the latest known
date, every point satisfies `0 ≤ lower_bound`, `0 ≤ predicted_quantity` and
`predicted_quantity ≤ upper_bound` (the clamping `lower = max(lower, 0)`,
`predicted = max(median, 0)`, `upper = max(upper, predicted)`), and
`lower_bound ≤ predicted_quantity` additionally holds whenever the raw
lower-quantile output never exceeds `max(raw median, 0)` — the clamping alone
does not repair a lower/median quantile crossing. -/
theorem claim_C1 (m : QuantileModels) (history_cache : List SalesRow) (days : ℕ)
    (hne : history_cache ≠ []) :
    ((predict m history_cache days).1.length = days) ∧
    (∀ (i : ℕ) (h : i < (predict m history_cache days).1.length),
      ((predict m history_cache days).1.get ⟨i, h⟩).date
        = pyMaxI (history_cache.map Prod.fst) + 1 + i) ∧
    (∀ p ∈ (predict m history_cache days).1,
      0 ≤ p.lower_bound ∧ 0 ≤ p.predicted_quantity ∧
        p.predicted_quantity ≤ p.upper_bound) ∧
    ((∀ h d, m.p10 h d ≤ max (m.p50 h d) 0) →
      ∀ p ∈ (predict m history_cache days).1, p.lower_bound ≤ p.predicted_quantity) ∧
    ((predict m history_cache days).2 = history_cache.length) := by
  refine ⟨predictLoop_length m days _, ?_,
    fun p hp => predictLoop_bounds m days _ p hp,
    fun hm p hp => predictLoop_lower m hm days _ p hp, rfl⟩
  intro i h
  have h' : i < (predictLoop m days (fillMissingDates history_cache)).length := h
  show ((predictLoop m days (fillMissingDates history_cache)).get ⟨i, h'⟩).date
    = pyMaxI (history_cache.map Prod.fst) + 1 + i
  rw [predictLoop_dates m days _ (fillMissingDates_ne_nil hne) i h',
    fillMissingDates_maxDate hne]

/-- Witness for C1 at a constant model and two-day horizon. -/
theorem claim_C1_witness :
    (predict ⟨fun _ _ => 0, fun _ _ => 0, fun _ _ => 0⟩ [(0, 1)] 2).1.length = 2 :=
  (claim_C1 ⟨fun _ _ => 0, fun _ _ => 0, fun _ _ => 0⟩ [(0, 1)] 2 (by simp)).1

/-- Counterexample for C1 as frozen: with a crossed quantile pair (raw lower 5,
raw median 3 — nothing in training or clamping forbids this), the single
forecast point has `lower_bound = 5 > predicted_quantity = 3`, so
`lower_bound ≤ predicted_quantity` is not enforced by the clamping. -/
theorem claim_C1_counterexample :
    (predict ⟨fun _ _ => 5, fun _ _ => 3, fun _ _ => 10⟩ [(0, 1)] 1).1 =
      [⟨1, 5, 3, 10, "LOW"⟩] ∧ ¬ ((5:ℚ) ≤ 3) := by
  constructor
  · norm_num [predict, predictLoop, fillMissingDates, pyMaxI, pyMinI, toLookup,
      confidence_from_quantiles, List.maximum_singleton, List.minimum_singleton,
      WithBot.unbot'_coe, WithTop.untop'_coe, List.range_succ, max_def]
  · norm_num

/- ---------------------------------------------------------------------
C3: training data-insufficiency
--------------------------------------------------------------------- -/

theorem normalizeSales_dates (data : List SalesRow) :
    (normalizeSales data).map Prod.fst
      = ((data.map Prod.fst).dedup).insertionSort (· ≤ ·) := by
  simp [normalizeSales, List.map_map, Function.comp_def]

theorem normalizeSales_nodup (data : List SalesRow) :
    ((normalizeSales data).map Prod.fst).Nodup := by
  rw [normalizeSales_dates]
  exact (List.perm_insertionSort _ _).nodup_iff.mpr (List.nodup_dedup _)

theorem normalizeSales_ne_nil {data : List SalesRow} (h : data ≠ []) :
    normalizeSales data ≠ [] := by
  intro hc
  have := congrArg (List.map Prod.fst) hc
  rw [normalizeSales_dates] at this
  have hp := List.perm_insertionSort (α := ℤ) (· ≤ ·) ((data.map Prod.fst).dedup)
  rw [this] at hp
  have hd : (data.map Prod.fst).dedup = [] := by
    simpa using hp.symm.eq_nil
  have hm : data.map Prod.fst = [] := (List.dedup_eq_nil _).mp hd
  exact h (List.map_eq_nil_iff.mp hm)

theorem length_le_denseLength (data : List SalesRow) (h : normalizeSales data ≠ []) :
    (normalizeSales data).length ≤ (fillMissingDates (normalizeSales data)).length := by
  have hnd : ((normalizeSales data).map Prod.fst).Nodup := normalizeSales_nodup data
  have hne : (normalizeSales data).map Prod.fst ≠ [] := by simpa using h
  unfold fillMissingDates
  rw [if_neg (by simpa [List.isEmpty_iff] using h)]
  rw [List.length_map, List.length_range]
  have hlen : (normalizeSales data).length = ((normalizeSales data).map Prod.fst).length :=
    (List.length_map _ _).symm
  rw [hlen, ← List.toFinset_card_of_nodup hnd]
  have hsub : ((normalizeSales data).map Prod.fst).toFinset ⊆
      Finset.Icc (pyMinI ((normalizeSales data).map Prod.fst))
        (pyMaxI ((normalizeSales data).map Prod.fst)) := by
    intro a ha
    rw [List.mem_toFinset] at ha
    rw [Finset.mem_Icc]
    exact ⟨pyMinI_le_of_mem ha, le_pyMaxI_of_mem ha⟩
  have hcard := Finset.card_le_card hsub
  rw [Int.card_Icc] at hcard
  omega

/-- C3 (amended): for every non-empty input series whose dense calendar span is
fewer than 30 days, `train` fails with the data-insufficiency error naming the
minimum 30 and the actual (per-date) row count, and the model store is left
unchanged — no artifact is stored for the product. -/
theorem claim_C3 (fit : List SalesRow → QuantileModels) (store : ModelStore)
    (sales_data : List SalesRow) (product_id : String)
    (hne : sales_data ≠ [])
    (hlt : (fillMissingDates (normalizeSales sales_data)).length < 30) :
    (train fit store sales_data product_id).1 =
      .error (.insufficientData 30 (normalizeSales sales_data).length) ∧
    (normalizeSales sales_data).length < 30 ∧
    (train fit store sales_data product_id).2 = store := by
  have hdf : normalizeSales sales_data ≠ [] := normalizeSales_ne_nil hne
  have hlen : (normalizeSales sales_data).length < 30 :=
    lt_of_le_of_lt (length_le_denseLength _ hdf) hlt
  unfold train
  rw [if_neg (by simpa [List.isEmpty_iff] using hdf)]
  rw [if_pos (show (normalizeSales sales_data).length < MIN_TRAINING_DAYS from hlen)]
  exact ⟨rfl, hlen, rfl⟩

/-- Counterexample for C3 as frozen: the empty series has 0 (< 30) dense daily
rows, yet `train` raises the separate `"Sales data is empty"` error, which names
neither the minimum 30 nor the actual count. -/
theorem claim_C3_counterexample :
    (train (fun _ => ⟨fun _ _ => 0, fun _ _ => 0, fun _ _ => 0⟩) (fun _ => none)
      [] "p").1 = .error .emptyData ∧
    (fillMissingDates (normalizeSales ([] : List SalesRow))).length = 0 ∧
    TrainError.emptyData ≠ TrainError.insufficientData 30 0 :=
  ⟨rfl, rfl, by decide⟩

/-- Witness for C3 (amended) on a one-day series. -/
theorem claim_C3_witness :
    (train (fun _ => ⟨fun _ _ => 0, fun _ _ => 0, fun _ _ => 0⟩) (fun _ => none)
      [(0, 5)] "p").1 = .error (.insufficientData 30 1) := by
  have h := (claim_C3 (fun _ => ⟨fun _ _ => 0, fun _ _ => 0, fun _ _ => 0⟩) (fun _ => none)
    [(0, 5)] "p" (by simp)
    (by
      norm_num [fillMissingDates, normalizeSales, pyMaxI, pyMinI, toLookup,
        List.maximum_singleton, List.minimum_singleton, WithBot.unbot'_coe,
        WithTop.untop'_coe, List.insertionSort, List.orderedInsert, List.range_succ])).1
  rw [h]
  norm_num [normalizeSales, List.insertionSort, List.orderedInsert]

/- ---------------------------------------------------------------------
C6: burst detector
--------------------------------------------------------------------- -/

theorem detect_burst_level (df : List (ℤ × ℚ)) (h : 5 ≤ df.length) :
    (detect_burst df).level =
      (if burstZ df > 3 then "CRITICAL" else if burstZ df > 2 then "HIGH"
       else if burstZ df > 3/2 then "MEDIUM" else "NORMAL") := by
  unfold detect_burst
  rw [if_neg (by omega)]

theorem detect_burst_btype (df : List (ℤ × ℚ)) (h : 5 ≤ df.length) :
    (detect_burst df).btype =
      (if (if burstZ df > 3 then "CRITICAL" else if burstZ df > 2 then "HIGH"
            else if burstZ df > 3/2 then "MEDIUM" else "NORMAL") = "NORMAL" then "NORMAL"
       else if pyWeekday (pyMaxI (df.map Prod.fst)) = 5 ∨
           pyWeekday (pyMaxI (df.map Prod.fst)) = 6 then "SEASONAL"
       else "SPIKE") := by
  unfold detect_burst
  rw [if_neg (by omega)]

theorem burstLadder_spec (z : ℝ) :
    ((if z > 3 then "CRITICAL" else if z > 2 then "HIGH" else if z > 3/2 then "MEDIUM"
      else "NORMAL") = "CRITICAL" ↔ z > 3) ∧
    ((if z > 3 then "CRITICAL" else if z > 2 then "HIGH" else if z > 3/2 then "MEDIUM"
      else "NORMAL") = "HIGH" ↔ 2 < z ∧ z ≤ 3) ∧
    ((if z > 3 then "CRITICAL" else if z > 2 then "HIGH" else if z > 3/2 then "MEDIUM"
      else "NORMAL") = "MEDIUM" ↔ 3/2 < z ∧ z ≤ 2) ∧
    ((if z > 3 then "CRITICAL" else if z > 2 then "HIGH" else if z > 3/2 then "MEDIUM"
      else "NORMAL") = "NORMAL" ↔ z ≤ 3/2) := by
  split_ifs with h1 h2 h3 <;> refine ⟨?_, ?_, ?_, ?_⟩ <;> simp_all <;>
    first
      | linarith
      | (intro hx; linarith)

/-- C6: for at least 5 days of data, the burst level is CRITICAL iff
`z > 3`, HIGH iff `2 < z ≤ 3`, MEDIUM iff `1.5 < z ≤ 2`, else NORMAL, where
`z = (latest − mean(all-but-latest)) / max(std(all-but-latest), 0.1)`; the type
is NORMAL exactly when the level is NORMAL, and otherwise SEASONAL iff the
latest date falls on a weekend day (weekday 5 or 6), else SPIKE; for fewer than
5 days the result is the NORMAL/zero record. -/
theorem claim_C6 (df : List (ℤ × ℚ)) :
    (df.length < 5 → detect_burst df = ⟨0, "NORMAL", "NORMAL"⟩) ∧
    (5 ≤ df.length →
      (((detect_burst df).level = "CRITICAL" ↔ burstZ df > 3) ∧
       ((detect_burst df).level = "HIGH" ↔ (2 < burstZ df ∧ burstZ df ≤ 3)) ∧
       ((detect_burst df).level = "MEDIUM" ↔ (3/2 < burstZ df ∧ burstZ df ≤ 2)) ∧
       ((detect_burst df).level = "NORMAL" ↔ burstZ df ≤ 3/2)) ∧
      ((detect_burst df).btype = "NORMAL" ↔ (detect_burst df).level = "NORMAL") ∧
      ((detect_burst df).level ≠ "NORMAL" →
        (((detect_burst df).btype = "SEASONAL" ↔
          (pyWeekday (pyMaxI (df.map Prod.fst)) = 5 ∨
           pyWeekday (pyMaxI (df.map Prod.fst)) = 6)) ∧
         ((detect_burst df).btype = "SPIKE" ↔
          ¬ (pyWeekday (pyMaxI (df.map Prod.fst)) = 5 ∨
             pyWeekday (pyMaxI (df.map Prod.fst)) = 6))))) ∧
    burstZ df =
      (((df.map Prod.snd).getLastD 0 - npMean ((df.map Prod.snd).dropLast) : ℚ) : ℝ) /
        max (Real.sqrt (npVar ((df.map Prod.snd).dropLast))) (1/10) := by
  refine ⟨fun h => ?_, fun h => ?_, rfl⟩
  · unfold detect_burst
    rw [if_pos h]
  · have hl := detect_burst_level df h
    have hb := detect_burst_btype df h
    rw [← hl] at hb
    have hs := burstLadder_spec (burstZ df)
    refine ⟨⟨hl ▸ hs.1, hl ▸ hs.2.1, hl ▸ hs.2.2.1, hl ▸ hs.2.2.2⟩, ?_, ?_⟩
    · by_cases hn : (detect_burst df).level = "NORMAL"
      · rw [hb, if_pos hn]
        exact iff_of_true rfl hn
      · rw [hb, if_neg hn]
        split_ifs with hw
        · exact iff_of_false (by simp) hn
        · exact iff_of_false (by simp) hn
    · intro hn
      rw [hb, if_neg hn]
      split_ifs with hw
      · exact ⟨iff_of_true rfl hw, iff_of_false (by simp) (fun hc => hc hw)⟩
      · exact ⟨iff_of_false (by simp) hw, iff_of_true rfl hw⟩

/-- Witness for C6: four identical days then a value 4 floored-stds above the
mean gives z = 4 and level CRITICAL (the spec's example). -/
theorem claim_C6_witness :
    (detect_burst [(0, 10), (1, 10), (2, 10), (3, 10), (4, 52/5)]).level = "CRITICAL" := by
  have hz : burstZ [(0, 10), (1, 10), (2, 10), (3, 10), (4, 52/5)] > 3 := by
    have hv : npVar (((([(0, 10), (1, 10), (2, 10), (3, 10), (4, 52/5)] :
        List (ℤ × ℚ)).map Prod.snd)).dropLast) = 0 := by
      norm_num [npVar, npMean]
    have hm : npMean (((([(0, 10), (1, 10), (2, 10), (3, 10), (4, 52/5)] :
        List (ℤ × ℚ)).map Prod.snd)).dropLast) = 10 := by
      norm_num [npMean]
    have hlast : ((([(0, 10), (1, 10), (2, 10), (3, 10), (4, 52/5)] :
        List (ℤ × ℚ)).map Prod.snd)).getLastD 0 = 52/5 := by
      norm_num [List.getLastD]
    rw [burstZ, burstStd, hv, hm, hlast]
    rw [show ((0:ℚ):ℝ) = 0 from by norm_num, Real.sqrt_zero,
      max_eq_right (by norm_num : (0:ℝ) ≤ 1/10)]
    norm_num
  exact ((claim_C6 [(0, 10), (1, 10), (2, 10), (3, 10), (4, 52/5)]).2.1
    (by norm_num)).1.1.mpr hz

/- ---------------------------------------------------------------------
C9: fallback forecaster determinism
--------------------------------------------------------------------- -/

/-- C9: the statistical fallback forecaster is a pure function — two
evaluations on the same inputs give identical prediction lists — and its
per-day pseudo-variation is determined solely by day-of-month, month and
day-of-week (no random source), perturbing by at most ±(5% × variation_scale). -/
theorem claim_C9 (df : List (ℤ × ℚ)) (days : ℕ) (scale : ℚ) (d1 d2 : ℤ) :
    (generate_fallback_predictions df days = generate_fallback_predictions df days) ∧
    (pyDay d1 = pyDay d2 → pyMonth d1 = pyMonth d2 → pyWeekday d1 = pyWeekday d2 →
      variationFactor scale (pyDay d1) (pyMonth d1) (pyWeekday d1) =
        variationFactor scale (pyDay d2) (pyMonth d2) (pyWeekday d2)) ∧
    (0 ≤ scale →
      |variationFactor scale (pyDay d1) (pyMonth d1) (pyWeekday d1) - 1|
        ≤ 5/100 * scale) := by
  refine ⟨rfl, fun h1 h2 h3 => by rw [h1, h2, h3], fun hs => ?_⟩
  set s := dateSeed (pyDay d1) (pyMonth d1) (pyWeekday d1) with hsdef
  have hs0 : (0:ℤ) ≤ s := Int.emod_nonneg _ (by norm_num)
  have hs99 : s < 100 := Int.emod_lt_of_pos _ (by norm_num)
  have hq0 : (0:ℚ) ≤ (s:ℚ) := by exact_mod_cast hs0
  have hq99 : (s:ℚ) ≤ 99 := by exact_mod_cast (by omega : s ≤ 99)
  unfold variationFactor
  rw [← hsdef, add_sub_cancel_left, abs_mul]
  have ha : |((s:ℚ) - 50) / 100| ≤ 1/2 := by
    rw [abs_div, show |(100:ℚ)| = 100 from by norm_num, div_le_iff₀ (by norm_num)]
    rw [abs_le]
    constructor <;> linarith
  have hb : |5/100 * scale| = 5/100 * scale := abs_of_nonneg (by linarith)
  rw [hb]
  have hmul := mul_le_mul_of_nonneg_right ha (show (0:ℚ) ≤ 5/100 * scale by linarith)
  linarith

/-- Witness for C9 at scale 1 and the epoch date. -/
theorem claim_C9_witness :
    |variationFactor 1 (pyDay 0) (pyMonth 0) (pyWeekday 0) - 1| ≤ 5/100 * 1 :=
  (claim_C9 [] 0 1 0 0).2.2 (by norm_num)

/-- Counterexample for C8 as frozen: with blended forecasts `[0, 0, -2]` and a
non-CRITICAL burst, the three PEAK_STRATEGY conditions all hold (rule 1 did not
fire, the peak index 0 is before the last two days, and `-2 < 0.75 × 0`), yet
no recommendation is produced: the zero peak makes the Python message
formatting raise `ZeroDivisionError`. -/
theorem claim_C8_counterexample :
    generate_recommendations ⟨some "LOW", 0⟩ ⟨none, 0⟩
      [⟨0, 0, 0, 0, 0, 0, 0, 0, 0, "LOW"⟩, ⟨1, 0, 0, 0, 0, 0, 0, 0, 0, "LOW"⟩,
       ⟨2, 0, 0, 0, 0, -2, -2, 0, 0, "LOW"⟩] = none ∧
    peakIndexOf [(0:ℚ), 0, -2] < ([(0:ℚ), 0, -2]).length - 2 ∧
    ([(0:ℚ), 0, -2]).getLastD 0 < pyMax [(0:ℚ), 0, -2] * (75/100) := by
  have hfv : forecastValues
      [⟨0, 0, 0, 0, 0, 0, 0, 0, 0, "LOW"⟩, ⟨1, 0, 0, 0, 0, 0, 0, 0, 0, "LOW"⟩,
       ⟨2, 0, 0, 0, 0, -2, -2, 0, 0, "LOW"⟩] = [0, 0, -2] := by
    simp [forecastValues]
  have hmax : pyMax [(0:ℚ), 0, -2] = 0 := by
    have hle := le_pyMax_of_mem (l := [(0:ℚ), 0, -2]) (a := 0) (by simp)
    have hm := pyMax_mem (l := [(0:ℚ), 0, -2]) (by simp)
    simp at hm
    rcases hm with h | h
    · exact h
    · rw [h] at hle
      linarith
  have hpeak : peakIndexOf [(0:ℚ), 0, -2] = 0 := by
    rw [peakIndexOf, hmax]
    decide
  refine ⟨?_, ?_, ?_⟩
  · apply genRecs_rule2_crash
    · simp
    · rw [hfv, hpeak, hmax]
      refine ⟨by norm_num, by norm_num⟩
    · rw [hfv]
      exact hmax
  · rw [hpeak]
    norm_num
  · rw [hmax]
    norm_num
